import Mathlib

/-!
Verification development for the predictor repository.

The Python sources under backend/app are shallowly embedded as Lean
definitions: Python int becomes Int (or Nat for counts), Python float
arithmetic on the statistics is modelled exactly over Rat, strings are
Lean String values compared by code points, and Python round(x, n)
(round-half-to-even) is modelled by roundTo below.  list.sort, which is
a stable sort, is modelled by the stable insertion sort pySort.
-/

/-! ## Rounding: model of Python round(x, n) over Rat -/

/-- Floor of a rational, computed with Euclidean division so that it
evaluates by kernel reduction. -/
def ratFloorZ (q : ℚ) : ℤ := q.num / (q.den : ℤ)

/-- Round a rational to the nearest integer, ties to even, as Python
round does. -/
def roundHalfEven (q : ℚ) : ℤ :=
  let f := ratFloorZ q
  let r := q - (f : ℚ)
  if r < 1/2 then f
  else if 1/2 < r then f + 1
  else if f % 2 = 0 then f else f + 1

/-- Model of Python round(q, n): round to n decimal digits. -/
def roundTo (q : ℚ) (n : ℕ) : ℚ := (roundHalfEven (q * 10 ^ n) : ℚ) / 10 ^ n

/-! ## Data model: ApiMatch (backend/app/core/entities.py), extended with
the year and competition fields that match_cleaner.py supplies and the
statistics functions read. -/

structure ApiGoal where
  player : String
  minute : ℤ
deriving DecidableEq

structure ApiMatch where
  team_a : String
  team_b : String
  team_a_code : String
  team_b_code : String
  score_a : ℤ
  score_b : ℤ
  goals : List ApiGoal
  year : String
  competition : String
deriving DecidableEq

/-! ## Stable sort (model of Python list.sort) -/

/-- Insert x in front of the first element y with le x y.  Used by
pySort; for a total preorder le this yields the stable sort that
Python list.sort performs. -/
def insertOrd (le : α → α → Bool) (x : α) : List α → List α
  | [] => [x]
  | y :: ys => if le x y then x :: y :: ys else y :: insertOrd le x ys

/-- Stable insertion sort: model of Python list.sort with a key. -/
def pySort (le : α → α → Bool) : List α → List α
  | [] => []
  | x :: xs => insertOrd le x (pySort le xs)

/-- Lexicographic comparison of char lists: Python string < on code
points. -/
def listLtC : List Char → List Char → Bool
  | [], [] => false
  | [], _ :: _ => true
  | _ :: _, [] => false
  | a :: as, b :: bs => if a < b then true else if b < a then false else listLtC as bs

/-- Python string comparison (lexicographic by code point). -/
def strLt (a b : String) : Bool := listLtC a.data b.data

/-- Ascending order on the year field (sort key of momentum and
streaks): a before b when a.year is not greater. -/
def yearAsc (a b : ApiMatch) : Bool := !(strLt b.year a.year)

/-- Descending order on the year field (sort with reverse=True in
calculate_head_to_head). -/
def yearDesc (a b : ApiMatch) : Bool := !(strLt a.year b.year)

/-! ## calculate_head_to_head (analytics/features/history.py) -/

structure H2HStats where
  total_matches : ℕ
  wins_a : ℕ
  wins_b : ℕ
  draws : ℕ
  goals_a : ℤ
  goals_b : ℤ
  recent_matches : List ApiMatch
deriving DecidableEq

/-- The match is between the two given teams, in either order. -/
def h2hBetween (a b : String) (m : ApiMatch) : Bool :=
  (m.team_a_code == a && m.team_b_code == b) ||
  (m.team_a_code == b && m.team_b_code == a)

/-- One loop iteration of calculate_head_to_head. -/
def h2hStep (team_a_code : String) (st : H2HStats) (m : ApiMatch) : H2HStats :=
  let sa := if m.team_a_code == team_a_code then m.score_a else m.score_b
  let sb := if m.team_a_code == team_a_code then m.score_b else m.score_a
  let st := { st with
      total_matches := st.total_matches + 1
      goals_a := st.goals_a + sa
      goals_b := st.goals_b + sb }
  if sa > sb then { st with wins_a := st.wins_a + 1 }
  else if sb > sa then { st with wins_b := st.wins_b + 1 }
  else { st with draws := st.draws + 1 }

def calculate_head_to_head (team_a_code team_b_code : String)
    (ms : List ApiMatch) : H2HStats :=
  let filtered := ms.filter (h2hBetween team_a_code team_b_code)
  let core := filtered.foldl (h2hStep team_a_code)
    { total_matches := 0, wins_a := 0, wins_b := 0, draws := 0
      goals_a := 0, goals_b := 0, recent_matches := [] }
  { core with recent_matches := pySort yearDesc filtered }

/-! ## calculate_momentum (analytics/features/momentum.py) -/

structure MomentumEntry where
  opponent : String
  result : String
  points : ℕ
  year : String
  competition : String
  momentum_score : ℚ
deriving DecidableEq

structure MomentumResult where
  current_momentum : ℚ
  history : List MomentumEntry
deriving DecidableEq

/-- Matches in which the team took part, in list order. -/
def teamFilter (c : String) (ms : List ApiMatch) : List ApiMatch :=
  ms.filter (fun m => m.team_a_code == c || m.team_b_code == c)

/-- Points, W/D/L result and opponent of one match from the view of
team c. -/
def matchPoints (c : String) (m : ApiMatch) : ℕ × String × String :=
  let gf := if m.team_a_code == c then m.score_a else m.score_b
  let ga := if m.team_a_code == c then m.score_b else m.score_a
  let opp := if m.team_a_code == c then m.team_b else m.team_a
  if gf > ga then (3, "W", opp)
  else if gf < ga then (0, "L", opp)
  else (1, "D", opp)

/-- The EMA loop of calculate_momentum: e is the running (unrounded)
EMA, the output collects the values rounded to 2 decimals. -/
def emaHistory (k : ℚ) (e : ℚ) : List ℚ → List ℚ
  | [] => []
  | p :: ps =>
    let e2 := p * k + e * (1 - k)
    roundTo e2 2 :: emaHistory k e2 ps

/-- Last n elements of a list: Python l[-n:]. -/
def lastN (n : ℕ) (l : List α) : List α := l.drop (l.length - n)

def calculate_momentum (team_code : String) (ms : List ApiMatch)
    (span : ℕ := 5) : MomentumResult :=
  let tm := pySort yearAsc (teamFilter team_code ms)
  match tm with
  | [] => { current_momentum := 0, history := [] }
  | m0 :: rest =>
    let k : ℚ := 2 / (span + 1)
    let p0 : ℚ := ((matchPoints team_code m0).1 : ℚ)
    let emas := roundTo p0 2 ::
      emaHistory k p0 (rest.map (fun m => ((matchPoints team_code m).1 : ℚ)))
    let hist := List.zipWith
      (fun m e =>
        let pi := matchPoints team_code m
        { opponent := pi.2.2, result := pi.2.1, points := pi.1
          year := m.year, competition := m.competition
          momentum_score := e : MomentumEntry })
      (m0 :: rest) emas
    { current_momentum := emas.getLastD 0, history := lastN 10 hist }

/-! ## calculate_goal_stats (analytics/features/goal_stats.py) -/

structure CompAcc where
  goals_for : ℤ
  goals_against : ℤ
  matches_played : ℕ
deriving DecidableEq

structure GlobalGoalStats where
  goals_for : ℤ
  goals_against : ℤ
  matches_played : ℕ
  avg_goals_for : ℚ
  avg_goals_against : ℚ
  goal_difference : ℤ
deriving DecidableEq

structure GoalStats where
  global : GlobalGoalStats
  by_competition : List (String × GlobalGoalStats)
deriving DecidableEq

/-- Accumulate one match into the per-competition table, keeping
insertion order as a Python dict does. -/
def updateComp (key : String) (gf ga : ℤ) :
    List (String × CompAcc) → List (String × CompAcc)
  | [] => [(key, { goals_for := gf, goals_against := ga, matches_played := 1 })]
  | (k, v) :: rest =>
    if k == key then
      (k, { goals_for := v.goals_for + gf, goals_against := v.goals_against + ga
            matches_played := v.matches_played + 1 }) :: rest
    else (k, v) :: updateComp key gf ga rest

/-- Finalize one accumulator into the output shape with averages. -/
def finalizeComp (v : CompAcc) : GlobalGoalStats :=
  if v.matches_played > 0 then
    { goals_for := v.goals_for, goals_against := v.goals_against
      matches_played := v.matches_played
      avg_goals_for := roundTo ((v.goals_for : ℚ) / (v.matches_played : ℚ)) 2
      avg_goals_against := roundTo ((v.goals_against : ℚ) / (v.matches_played : ℚ)) 2
      goal_difference := v.goals_for - v.goals_against }
  else
    { goals_for := v.goals_for, goals_against := v.goals_against
      matches_played := v.matches_played
      avg_goals_for := 0, avg_goals_against := 0, goal_difference := 0 }

def calculate_goal_stats (team_code : String) (ms : List ApiMatch) : GoalStats :=
  let acc := ms.foldl
    (fun (st : CompAcc × List (String × CompAcc)) m =>
      if m.team_a_code == team_code then
        ({ goals_for := st.1.goals_for + m.score_a
           goals_against := st.1.goals_against + m.score_b
           matches_played := st.1.matches_played + 1 },
         updateComp (m.competition ++ " " ++ m.year) m.score_a m.score_b st.2)
      else if m.team_b_code == team_code then
        ({ goals_for := st.1.goals_for + m.score_b
           goals_against := st.1.goals_against + m.score_a
           matches_played := st.1.matches_played + 1 },
         updateComp (m.competition ++ " " ++ m.year) m.score_b m.score_a st.2)
      else st)
    ({ goals_for := 0, goals_against := 0, matches_played := 0 }, [])
  { global :=
      if acc.1.matches_played > 0 then finalizeComp acc.1
      else { goals_for := acc.1.goals_for, goals_against := acc.1.goals_against
             matches_played := acc.1.matches_played
             avg_goals_for := 0, avg_goals_against := 0, goal_difference := 0 }
    by_competition := acc.2.map (fun p => (p.1, finalizeComp p.2)) }

/-! ## calculate_streak_stats (analytics/features/streaks.py) -/

structure StreakInfo where
  type : Option String
  count : ℕ
deriving DecidableEq

structure LongestStreaks where
  w : ℕ
  d : ℕ
  l : ℕ
  unbeaten : ℕ
deriving DecidableEq

structure TransRow where
  w : ℚ
  d : ℚ
  l : ℚ
  sample_size : ℕ
deriving DecidableEq

structure Transitions where
  w : TransRow
  d : TransRow
  l : TransRow
deriving DecidableEq

structure StreakStats where
  current_streak : StreakInfo
  longest_streaks : LongestStreaks
  transitions : Transitions
  total_matches : ℕ
deriving DecidableEq

/-- W/D/L result of one match from the view of team c. -/
def resultOf (c : String) (m : ApiMatch) : String :=
  let gf := if m.team_a_code == c then m.score_a else m.score_b
  let ga := if m.team_a_code == c then m.score_b else m.score_a
  if gf > ga then "W" else if gf < ga then "L" else "D"

/-- One iteration of the longest-streaks loop; carries (longest, temp). -/
def streakStep (st : LongestStreaks × LongestStreaks) (res : String) :
    LongestStreaks × LongestStreaks :=
  let longest := st.1
  let temp := st.2
  let p1 := if res == "W" then (longest.w, temp.w + 1) else (max longest.w temp.w, 0)
  let p2 := if res == "D" then (longest.d, temp.d + 1) else (max longest.d temp.d, 0)
  let p3 := if res == "L" then (longest.l, temp.l + 1) else (max longest.l temp.l, 0)
  let p4 := if res == "W" || res == "D" then (longest.unbeaten, temp.unbeaten + 1)
            else (max longest.unbeaten temp.unbeaten, 0)
  ({ w := p1.1, d := p2.1, l := p3.1, unbeaten := p4.1 },
   { w := p1.2, d := p2.2, l := p3.2, unbeaten := p4.2 })

structure TransCount where
  w : ℕ
  d : ℕ
  l : ℕ
  total : ℕ
deriving DecidableEq

structure TransCounts where
  w : TransCount
  d : TransCount
  l : TransCount
deriving DecidableEq

/-- Bump one transition count (transitions[prev][next] += 1 and
transitions[prev]["total"] += 1). -/
def bumpTrans (tc : TransCounts) (prev nxt : String) : TransCounts :=
  let bumpRow : TransCount → TransCount := fun row =>
    let row := if nxt == "W" then { row with w := row.w + 1 }
      else if nxt == "D" then { row with d := row.d + 1 }
      else if nxt == "L" then { row with l := row.l + 1 }
      else row
    { row with total := row.total + 1 }
  if prev == "W" then { tc with w := bumpRow tc.w }
  else if prev == "D" then { tc with d := bumpRow tc.d }
  else if prev == "L" then { tc with l := bumpRow tc.l }
  else tc

/-- Count transitions over consecutive result pairs. -/
def countTransitions (tc : TransCounts) : List String → TransCounts
  | [] => tc
  | [_] => tc
  | p :: q :: rest => countTransitions (bumpTrans tc p q) (q :: rest)

/-- Turn one count row into the probability row of the output. -/
def probRow (row : TransCount) : TransRow :=
  if row.total > 0 then
    { w := roundTo ((row.w : ℚ) / (row.total : ℚ)) 2
      d := roundTo ((row.d : ℚ) / (row.total : ℚ)) 2
      l := roundTo ((row.l : ℚ) / (row.total : ℚ)) 2
      sample_size := row.total }
  else { w := 0, d := 0, l := 0, sample_size := 0 }

def calculate_streak_stats (team_code : String) (ms : List ApiMatch) : StreakStats :=
  let tm := pySort yearAsc (teamFilter team_code ms)
  let results := tm.map (resultOf team_code)
  let current : StreakInfo :=
    match results.getLast? with
    | none => { type := none, count := 0 }
    | some t => { type := some t, count := (results.reverse.takeWhile (· == t)).length }
  let longest : LongestStreaks :=
    match results with
    | [] => { w := 0, d := 0, l := 0, unbeaten := 0 }
    | _ =>
      let fin := results.foldl streakStep
        ({ w := 0, d := 0, l := 0, unbeaten := 0 },
         { w := 0, d := 0, l := 0, unbeaten := 0 })
      { w := max fin.1.w fin.2.w, d := max fin.1.d fin.2.d
        l := max fin.1.l fin.2.l, unbeaten := max fin.1.unbeaten fin.2.unbeaten }
  let tc := countTransitions
    { w := { w := 0, d := 0, l := 0, total := 0 }
      d := { w := 0, d := 0, l := 0, total := 0 }
      l := { w := 0, d := 0, l := 0, total := 0 } } results
  { current_streak := current
    longest_streaks := longest
    transitions := { w := probRow tc.w, d := probRow tc.d, l := probRow tc.l }
    total_matches := results.length }

/-! ## calculate_home_away_stats (analytics/features/home_away.py) -/

structure SideStats where
  matches_played : ℕ
  wins : ℕ
  draws : ℕ
  losses : ℕ
  goals_for : ℤ
  goals_against : ℤ
  win_percentage : ℚ
  avg_goals_for : ℚ
  avg_goals_against : ℚ
deriving DecidableEq

structure HomeAwayStats where
  home : SideStats
  away : SideStats
deriving DecidableEq

def sideAcc (st : SideStats) (gf ga : ℤ) : SideStats :=
  let st := { st with
      matches_played := st.matches_played + 1
      goals_for := st.goals_for + gf
      goals_against := st.goals_against + ga }
  if gf > ga then { st with wins := st.wins + 1 }
  else if gf < ga then { st with losses := st.losses + 1 }
  else { st with draws := st.draws + 1 }

def sideFinalize (st : SideStats) : SideStats :=
  if st.matches_played > 0 then
    { st with
        win_percentage := roundTo ((st.wins : ℚ) / (st.matches_played : ℚ) * 100) 1
        avg_goals_for := roundTo ((st.goals_for : ℚ) / (st.matches_played : ℚ)) 2
        avg_goals_against := roundTo ((st.goals_against : ℚ) / (st.matches_played : ℚ)) 2 }
  else st

def zeroSide : SideStats :=
  { matches_played := 0, wins := 0, draws := 0, losses := 0
    goals_for := 0, goals_against := 0
    win_percentage := 0, avg_goals_for := 0, avg_goals_against := 0 }

def calculate_home_away_stats (team_code : String) (ms : List ApiMatch) :
    HomeAwayStats :=
  let acc := ms.foldl
    (fun (st : HomeAwayStats) m =>
      if m.team_a_code == team_code then
        { st with home := sideAcc st.home m.score_a m.score_b }
      else if m.team_b_code == team_code then
        { st with away := sideAcc st.away m.score_b m.score_a }
      else st)
    { home := zeroSide, away := zeroSide }
  { home := sideFinalize acc.home, away := sideFinalize acc.away }

/-! ## calculate_graph_stats (analytics/features/graph_analysis.py) -/

structure IndirectRelation where
  intermediate_team : String
  indirect_victim : String
  intermediate_code : String
  indirect_victim_code : String
deriving DecidableEq

structure GraphStats where
  indirect_wins : List IndirectRelation
  total_indirect_wins : ℕ
deriving DecidableEq

/-- First value bound to a key in an association list (Python dict get). -/
def assocGet (l : List (String × α)) (k : String) : Option α :=
  match l with
  | [] => none
  | (k2, v) :: rest => if k2 == k then some v else assocGet rest k

/-- Overwrite-or-append binding (Python dict item assignment). -/
def assocSet (l : List (String × α)) (k : String) (v : α) : List (String × α) :=
  match l with
  | [] => [(k, v)]
  | (k2, v2) :: rest =>
    if k2 == k then (k2, v) :: rest else (k2, v2) :: assocSet rest k v

/-- Append a loser to the winner's list in the wins graph. -/
def addWin (g : List (String × List String)) (winner loser : String) :
    List (String × List String) :=
  match assocGet g winner with
  | none => g ++ [(winner, [loser])]
  | some ls => assocSet g winner (ls ++ [loser])

/-- One loop iteration of the beat-graph construction: record both
team names and an edge from the winner to the loser, if any. -/
def graphStep (st : List (String × List String) × List (String × String))
    (m : ApiMatch) : List (String × List String) × List (String × String) :=
  let names := assocSet (assocSet st.2 m.team_a_code m.team_a) m.team_b_code m.team_b
  if m.score_a > m.score_b then (addWin st.1 m.team_a_code m.team_b_code, names)
  else if m.score_b > m.score_a then (addWin st.1 m.team_b_code m.team_a_code, names)
  else (st.1, names)

/-- Build the directed beat graph and the code-to-name map. -/
def buildWinsGraph (ms : List ApiMatch) :
    List (String × List String) × List (String × String) :=
  ms.foldl graphStep ([], [])

/-- Inner loop over the second-order victims of one direct victim. -/
def collectFromVictim (team victim : String) (teamsMap : List (String × String))
    (seconds : List String) (st : List IndirectRelation × List String) :
    List IndirectRelation × List String :=
  seconds.foldl
    (fun st iv =>
      if iv != team then
        let relId := victim ++ "-" ++ iv
        if st.2.contains relId then st
        else
          (st.1 ++ [{ intermediate_team := (assocGet teamsMap victim).getD victim
                      indirect_victim := (assocGet teamsMap iv).getD iv
                      intermediate_code := victim
                      indirect_victim_code := iv }],
           st.2 ++ [relId])
      else st)
    st

def calculate_graph_stats (team_code : String) (ms : List ApiMatch) : GraphStats :=
  let built := buildWinsGraph ms
  let directVictims := (assocGet built.1 team_code).getD []
  let final := directVictims.foldl
    (fun st victim =>
      collectFromVictim team_code victim built.2 ((assocGet built.1 victim).getD []) st)
    ([], [])
  { indirect_wins := final.1, total_indirect_wins := final.1.length }

/-! ## calculate_goal_percentage_stats (analytics/features/goal_percentage.py) -/

structure GoalPercentageStats where
  available : Bool
  goals_per_match : ℚ
  total_goals : ℤ
  matches_played : ℕ
  message : String
deriving DecidableEq

def calculate_goal_percentage_stats (team_code : String) (ms : List ApiMatch) :
    GoalPercentageStats :=
  let acc := ms.foldl
    (fun (st : ℤ × ℕ) m =>
      if m.team_a_code == team_code then (st.1 + m.score_a, st.2 + 1)
      else if m.team_b_code == team_code then (st.1 + m.score_b, st.2 + 1)
      else st)
    (0, 0)
  { available := true
    goals_per_match :=
      if acc.2 > 0 then roundTo ((acc.1 : ℚ) / (acc.2 : ℚ)) 2 else 0
    total_goals := acc.1
    matches_played := acc.2
    message := "Datos calculados en base a historial disponible." }

/-! ## predict_match (analytics/match_predictor.py) -/

structure PredictionDetails where
  h2h_score_a : ℚ
  h2h_score_b : ℚ
  momentum_score_a : ℚ
  momentum_score_b : ℚ
  goal_power_a : ℚ
  goal_power_b : ℚ
  streak_score_a : ℚ
  streak_score_b : ℚ
deriving DecidableEq

structure PredictionFactors where
  h2h_weight : ℚ
  momentum_weight : ℚ
  goal_weight : ℚ
  streak_weight : ℚ
deriving DecidableEq

structure PredictionResult where
  team_a : String
  team_b : String
  probability_a : ℚ
  probability_b : ℚ
  details : PredictionDetails
  factors : PredictionFactors
deriving DecidableEq

/-- Head-to-head sub-scores of the two sides (factor 1 of predict_match). -/
def h2hScores (team_a_code team_b_code : String) (ms : List ApiMatch) : ℚ × ℚ :=
  let h2h := calculate_head_to_head team_a_code team_b_code ms
  if h2h.total_matches > 0 then
    let total : ℚ := (h2h.total_matches : ℚ)
    (((h2h.wins_a : ℚ) + (h2h.draws : ℚ) * (1/2)) / total,
     ((h2h.wins_b : ℚ) + (h2h.draws : ℚ) * (1/2)) / total)
  else (1/2, 1/2)

/-- Momentum sub-score of one team (factor 2 of predict_match). -/
def mScore (c : String) (ms : List ApiMatch) : ℚ :=
  min ((calculate_momentum c ms).current_momentum / 3) 1

/-- Goal power of the side whose attack is the first team and whose
opposing defense is the second team (factor 3 of predict_match). -/
def goalPower (attacker defender : String) (ms : List ApiMatch) : ℚ :=
  let ga := calculate_goal_stats attacker ms
  let gd := calculate_goal_stats defender ms
  ga.global.avg_goals_for * (1 + gd.global.avg_goals_against / 2)

/-- Normalized goal sub-scores of the two sides. -/
def goalScores (team_a_code team_b_code : String) (ms : List ApiMatch) : ℚ × ℚ :=
  let pa := goalPower team_a_code team_b_code ms
  let pb := goalPower team_b_code team_a_code ms
  if pa + pb = 0 then (1/2, 1/2) else (pa / (pa + pb), pb / (pa + pb))

/-- Signed value of the current streak (get_streak_val). -/
def streakVal (c : String) (ms : List ApiMatch) : ℚ :=
  let cs := (calculate_streak_stats c ms).current_streak
  match cs.type with
  | none => 0
  | some t =>
    if t == "W" then (cs.count : ℚ)
    else if t == "D" then (cs.count : ℚ) * (1/5)
    else if t == "L" then -(cs.count : ℚ)
    else 0

/-- Streak sub-score of one team (factor 4 of predict_match). -/
def sScore (c : String) (ms : List ApiMatch) : ℚ :=
  max 0 (min 1 ((streakVal c ms + 5) / 10))

/-- Final weighted score of side A. -/
def finalScoreA (a b : String) (ms : List ApiMatch) : ℚ :=
  (h2hScores a b ms).1 * (3/10) + mScore a ms * (1/4) +
    (goalScores a b ms).1 * (1/4) + sScore a ms * (1/5)

/-- Final weighted score of side B. -/
def finalScoreB (a b : String) (ms : List ApiMatch) : ℚ :=
  (h2hScores a b ms).2 * (3/10) + mScore b ms * (1/4) +
    (goalScores a b ms).2 * (1/4) + sScore b ms * (1/5)

/-- The final normalization block of predict_match: weighted scores to
a probability pair. -/
def probabilityPair (fa fb : ℚ) : ℚ × ℚ :=
  if fa + fb = 0 then (50, 50)
  else (roundTo (fa / (fa + fb) * 100) 1, roundTo (fb / (fa + fb) * 100) 1)

def predict_match (team_a_code team_b_code : String) (ms : List ApiMatch) :
    PredictionResult :=
  let h2h := h2hScores team_a_code team_b_code ms
  let ma := mScore team_a_code ms
  let mb := mScore team_b_code ms
  let gs := goalScores team_a_code team_b_code ms
  let sa := sScore team_a_code ms
  let sb := sScore team_b_code ms
  let probs := probabilityPair (finalScoreA team_a_code team_b_code ms)
    (finalScoreB team_a_code team_b_code ms)
  { team_a := team_a_code
    team_b := team_b_code
    probability_a := probs.1
    probability_b := probs.2
    details :=
      { h2h_score_a := roundTo h2h.1 2, h2h_score_b := roundTo h2h.2 2
        momentum_score_a := roundTo ma 2, momentum_score_b := roundTo mb 2
        goal_power_a := roundTo gs.1 2, goal_power_b := roundTo gs.2 2
        streak_score_a := roundTo sa 2, streak_score_b := roundTo sb 2 }
    factors :=
      { h2h_weight := 3/10, momentum_weight := 1/4
        goal_weight := 1/4, streak_weight := 1/5 } }

/-! ## Team normalizer (data/cleaning/team_normalizer.py)

The regular-expression substitutions of normalize_team_name are
patterns of letters with optional dots, bounded by word boundaries,
matched case-insensitively.  They are embedded as an explicit scanner
with the same semantics (greedy optional dots, with the final optional
dot backtracking against the trailing word boundary, non-overlapping
matches found left to right). -/

/-- Word characters for the word boundaries of the re module (ASCII). -/
def isWordChar (c : Char) : Bool := c.isAlphanum || c == '_'

/-- Python str.strip for char lists. -/
def pyStrip (cs : List Char) : List Char :=
  ((cs.dropWhile Char.isWhitespace).reverse.dropWhile Char.isWhitespace).reverse

/-- Python str.split() (split on whitespace runs, drop empties). -/
def splitWs (cs : List Char) : List (List Char) :=
  let fin := cs.foldl
    (fun (st : List (List Char) × List Char) c =>
      if c.isWhitespace then
        (if st.2 = [] then st.1 else st.1 ++ [st.2.reverse], [])
      else (st.1, c :: st.2))
    ([], [])
  if fin.2 = [] then fin.1 else fin.1 ++ [fin.2.reverse]

/-- Python sep.join with a single space. -/
def joinSpace (ws : List (List Char)) : List Char := List.intercalate [' '] ws

/-- The next char starts a word (used for the boundary after an
optional final dot). -/
def wordStart (t : List Char) : Bool :=
  match t with
  | [] => false
  | c :: _ => isWordChar c

/-- Trailing word boundary after a letter: end of input or a non-word
char next. -/
def trailingBoundary (t : List Char) : Bool :=
  match t with
  | [] => true
  | c :: _ => !isWordChar c

/-- Match a letters-with-optional-dots pattern at the head of the
input.  Items are (lowercase letter, optional dot follows).  Returns
the last consumed char and the remaining input.  The final optional dot
is consumed greedily but backtracks when the trailing word boundary
would fail. -/
def matchItems : List (Char × Bool) → List Char → Option (Char × List Char)
  | [], _ => none
  | [(c, dot)], input =>
    match input with
    | [] => none
    | x :: rest =>
      if x.toLower == c then
        (if dot then
          match rest with
          | '.' :: t => if wordStart t then some ('.', t) else some (x, '.' :: t)
          | t => if trailingBoundary t then some (x, t) else none
        else if trailingBoundary rest then some (x, rest) else none)
      else none
  | (c, dot) :: ps, input =>
    match input with
    | [] => none
    | x :: rest =>
      if x.toLower == c then
        (if dot then
          match rest with
          | '.' :: t => matchItems ps t
          | t => matchItems ps t
        else matchItems ps rest)
      else none

/-- Try a list of alternative patterns in order (regex alternation). -/
def tryPats : List (List (Char × Bool)) → List Char → Option (Char × List Char)
  | [], _ => none
  | p :: ps, input =>
    match matchItems p input with
    | some r => some r
    | none => tryPats ps input

/-- Scanner of re.sub for the patterns above: walk the input, attempt a
match wherever the left word boundary holds, splice the replacement and
continue after the match.  prev is the previous original char. -/
def subScanF (pats : List (List (Char × Bool))) (repl : List Char) :
    ℕ → Option Char → List Char → List Char
  | 0, _, input => input
  | _ + 1, _, [] => []
  | fuel + 1, prev, c :: rest =>
    if (match prev with | none => true | some p => !isWordChar p) then
      match tryPats pats (c :: rest) with
      | some (lastc, rem) => repl ++ subScanF pats repl fuel (some lastc) rem
      | none => c :: subScanF pats repl fuel (some c) rest
    else c :: subScanF pats repl fuel (some c) rest

/-- re.sub over a whole char list. -/
def pySub (pats : List (List (Char × Bool))) (repl : List Char)
    (cs : List Char) : List Char :=
  subScanF pats repl cs.length none cs

/-- Pattern of a plain word (no dots) for the \b(the|of|and|republic)\b
substitution of generate_team_code. -/
def wordPat (w : String) : List (Char × Bool) := w.data.map (fun c => (c, false))

def normalize_team_name (name : String) : String :=
  if name = "" then ""
  else
    let collapsed := joinSpace (splitWs name.data)
    let s1 := pySub [[('u', true), ('s', true), ('a', true)]] "USA".data collapsed
    let s2 := pySub [[('u', true), ('s', true)]] "USA".data s1
    let s3 := pySub [[('r', false), ('e', false), ('p', true)]] "Republic".data s2
    let s4 := pySub [[('d', false), ('e', false), ('m', true)]] "Democratic".data s3
    let s5 := pySub [[('p', false), ('r', false)]] "PR".data s4
    ⟨pyStrip s5⟩

/-- Per-char diacritic stripping; agrees with the NFKD-and-drop-combining
procedure of the source on the Latin letters that occur in the team
database and its inputs. -/
def stripDiacritic (c : Char) : Char :=
  match c with
  | 'á' | 'à' | 'â' | 'ä' | 'ã' | 'å' => 'a'
  | 'é' | 'è' | 'ê' | 'ë' => 'e'
  | 'í' | 'ì' | 'î' | 'ï' => 'i'
  | 'ó' | 'ò' | 'ô' | 'ö' | 'õ' => 'o'
  | 'ú' | 'ù' | 'û' | 'ü' => 'u'
  | 'ý' | 'ÿ' => 'y'
  | 'ñ' => 'n'
  | 'ç' => 'c'
  | 'Á' | 'À' | 'Â' | 'Ä' | 'Ã' | 'Å' => 'A'
  | 'É' | 'È' | 'Ê' | 'Ë' => 'E'
  | 'Í' | 'Ì' | 'Î' | 'Ï' => 'I'
  | 'Ó' | 'Ò' | 'Ô' | 'Ö' | 'Õ' => 'O'
  | 'Ú' | 'Ù' | 'Û' | 'Ü' => 'U'
  | 'Ý' => 'Y'
  | 'Ñ' => 'N'
  | 'Ç' => 'C'
  | _ => c

def removeDiacritics (s : String) : String := ⟨s.data.map stripDiacritic⟩

/-- Python str.lower (ASCII model). -/
def strLower (s : String) : String := ⟨s.data.map Char.toLower⟩

/-- Prefix test on char lists. -/
def isPre : List Char → List Char → Bool
  | [], _ => true
  | _ :: _, [] => false
  | a :: as, b :: bs => a == b && isPre as bs

/-- Python substring test (needle in haystack). -/
def containsSub : List Char → List Char → Bool
  | needle, [] => needle.isEmpty
  | needle, h =>
    isPre needle h ||
      match h with
      | [] => false
      | _ :: rest => containsSub needle rest

structure TeamInfo where
  name : String
  code : String
  historical_name : Option String
deriving DecidableEq

/-- TEAM_DATABASE of team_normalizer.py: (lookup key, canonical name,
FIFA code), in source order. -/
def TEAM_DATABASE : List (String × String × String) :=
  [("algeria", "Algeria", "ALG"),
   ("angola", "Angola", "ANG"),
   ("cameroon", "Cameroon", "CMR"),
   ("dr congo", "DR Congo", "COD"),
   ("democratic republic of congo", "DR Congo", "COD"),
   ("zaire", "DR Congo", "COD"),
   ("egypt", "Egypt", "EGY"),
   ("ghana", "Ghana", "GHA"),
   ("ivory coast", "C\xf4te d\x27Ivoire", "CIV"),
   ("c\xf4te d\x27ivoire", "C\xf4te d\x27Ivoire", "CIV"),
   ("cote d\x27ivoire", "C\xf4te d\x27Ivoire", "CIV"),
   ("morocco", "Morocco", "MAR"),
   ("nigeria", "Nigeria", "NGA"),
   ("senegal", "Senegal", "SEN"),
   ("south africa", "South Africa", "RSA"),
   ("togo", "Togo", "TOG"),
   ("tunisia", "Tunisia", "TUN"),
   ("australia", "Australia", "AUS"),
   ("china", "China PR", "CHN"),
   ("china pr", "China PR", "CHN"),
   ("india", "India", "IND"),
   ("indonesia", "Indonesia", "IDN"),
   ("dutch east indies", "Indonesia", "IDN"),
   ("iran", "Iran", "IRN"),
   ("ir iran", "Iran", "IRN"),
   ("iraq", "Iraq", "IRQ"),
   ("israel", "Israel", "ISR"),
   ("japan", "Japan", "JPN"),
   ("north korea", "Korea DPR", "PRK"),
   ("korea dpr", "Korea DPR", "PRK"),
   ("south korea", "Korea Republic", "KOR"),
   ("korea republic", "Korea Republic", "KOR"),
   ("korea", "Korea Republic", "KOR"),
   ("kuwait", "Kuwait", "KUW"),
   ("qatar", "Qatar", "QAT"),
   ("saudi arabia", "Saudi Arabia", "KSA"),
   ("united arab emirates", "UAE", "UAE"),
   ("uae", "UAE", "UAE"),
   ("albania", "Albania", "ALB"),
   ("austria", "Austria", "AUT"),
   ("belgium", "Belgium", "BEL"),
   ("bosnia-herzegovina", "Bosnia-Herzegovina", "BIH"),
   ("bosnia and herzegovina", "Bosnia-Herzegovina", "BIH"),
   ("bulgaria", "Bulgaria", "BUL"),
   ("croatia", "Croatia", "CRO"),
   ("czech republic", "Czech Republic", "CZE"),
   ("czechoslovakia", "Czechoslovakia", "TCH"),
   ("denmark", "Denmark", "DEN"),
   ("england", "England", "ENG"),
   ("france", "France", "FRA"),
   ("germany", "Germany", "GER"),
   ("west germany", "Germany", "GER"),
   ("east germany", "East Germany", "GDR"),
   ("greece", "Greece", "GRE"),
   ("hungary", "Hungary", "HUN"),
   ("iceland", "Iceland", "ISL"),
   ("ireland", "Republic of Ireland", "IRL"),
   ("republic of ireland", "Republic of Ireland", "IRL"),
   ("italy", "Italy", "ITA"),
   ("netherlands", "Netherlands", "NED"),
   ("holland", "Netherlands", "NED"),
   ("northern ireland", "Northern Ireland", "NIR"),
   ("norway", "Norway", "NOR"),
   ("poland", "Poland", "POL"),
   ("portugal", "Portugal", "POR"),
   ("romania", "Romania", "ROU"),
   ("russia", "Russia", "RUS"),
   ("scotland", "Scotland", "SCO"),
   ("serbia", "Serbia", "SRB"),
   ("serbia and montenegro", "Serbia and Montenegro", "SCG"),
   ("slovakia", "Slovakia", "SVK"),
   ("slovenia", "Slovenia", "SVN"),
   ("soviet union", "Soviet Union", "URS"),
   ("ussr", "Soviet Union", "URS"),
   ("spain", "Spain", "ESP"),
   ("sweden", "Sweden", "SWE"),
   ("switzerland", "Switzerland", "SUI"),
   ("turkey", "Turkey", "TUR"),
   ("ukraine", "Ukraine", "UKR"),
   ("wales", "Wales", "WAL"),
   ("yugoslavia", "Yugoslavia", "YUG"),
   ("canada", "Canada", "CAN"),
   ("costa rica", "Costa Rica", "CRC"),
   ("cuba", "Cuba", "CUB"),
   ("el salvador", "El Salvador", "SLV"),
   ("haiti", "Haiti", "HAI"),
   ("honduras", "Honduras", "HON"),
   ("jamaica", "Jamaica", "JAM"),
   ("mexico", "Mexico", "MEX"),
   ("panama", "Panama", "PAN"),
   ("trinidad and tobago", "Trinidad and Tobago", "TRI"),
   ("united states", "United States", "USA"),
   ("usa", "United States", "USA"),
   ("us", "United States", "USA"),
   ("argentina", "Argentina", "ARG"),
   ("bolivia", "Bolivia", "BOL"),
   ("brazil", "Brazil", "BRA"),
   ("chile", "Chile", "CHI"),
   ("colombia", "Colombia", "COL"),
   ("ecuador", "Ecuador", "ECU"),
   ("paraguay", "Paraguay", "PAR"),
   ("peru", "Peru", "PER"),
   ("uruguay", "Uruguay", "URU"),
   ("venezuela", "Venezuela", "VEN"),
   ("new zealand", "New Zealand", "NZL")]

def get_team_info (name : String) : Option TeamInfo :=
  if name = "" then none
  else
    let normalized := normalize_team_name name
    let lookupKey := strLower normalized
    match TEAM_DATABASE.find? (fun e => e.1 == lookupKey) with
    | some e =>
      some { name := e.2.1, code := e.2.2
             historical_name := if e.2.1 == name then none else some name }
    | none =>
      let asciiKey := removeDiacritics lookupKey
      match TEAM_DATABASE.find? (fun e => removeDiacritics e.1 == asciiKey) with
      | some e => some { name := e.2.1, code := e.2.2, historical_name := some name }
      | none =>
        match TEAM_DATABASE.find? (fun e =>
            containsSub lookupKey.data e.1.data ||
            containsSub e.1.data lookupKey.data) with
        | some e => some { name := e.2.1, code := e.2.2, historical_name := some name }
        | none => none

def get_team_code (name : String) : Option String :=
  (get_team_info name).map (fun i => i.code)

/-- Python str.lower per character.  CPython lowercases every code
point below 0x100 to a single code point: the ASCII capitals 65-90 and
the Latin-1 capitals 192-222 except the multiplication sign 215 shift
up by 32, every other such character is fixed.  Code points at or
above 0x100, where CPython has further mappings, are left unchanged by
the model; the theorems about generate_team_code therefore either
restrict to ASCII inputs or evaluate concrete Latin-1 strings, on
which the model is checked against CPython. -/
def pyLower (c : Char) : Char :=
  if (65 ≤ c.toNat ∧ c.toNat ≤ 90) ∨
      ((192 ≤ c.toNat ∧ c.toNat ≤ 222) ∧ c.toNat ≠ 215) then
    Char.ofNat (c.toNat + 32)
  else c

/-- Python str.isalpha per character, faithful below 0x100: the ASCII
letters, the ordinal indicators 170 and 186, the micro sign 181, and
the Latin-1 range 192-255 except the multiplication sign 215 and the
division sign 247.  Code points at or above 0x100 are reported
non-alphabetic by the model (CPython marks many of them alphabetic;
the theorems about generate_team_code restrict accordingly). -/
def pyIsAlpha (c : Char) : Bool :=
  (65 ≤ c.toNat && c.toNat ≤ 90) || (97 ≤ c.toNat && c.toNat ≤ 122) ||
  c.toNat == 170 || c.toNat == 181 || c.toNat == 186 ||
  ((192 ≤ c.toNat && c.toNat ≤ 255) && c.toNat != 215 && c.toNat != 247)

/-- Python str.upper per character, which can EXPAND: faithful below
0x100, where the ASCII letters 97-122 and the Latin-1 range 224-254
except the division sign 247 shift down by 32, the sharp s 223
expands to the two characters SS, y with diaeresis 255 maps to 0x178,
the micro sign 181 maps to the Greek capital mu 0x39C, and every
other such character is fixed.  Code points at or above 0x100 are
left unchanged by the model. -/
def pyUpperC (c : Char) : List Char :=
  if 97 ≤ c.toNat ∧ c.toNat ≤ 122 then [Char.ofNat (c.toNat - 32)]
  else if c.toNat = 223 then ['S', 'S']
  else if c.toNat = 255 then [Char.ofNat 376]
  else if c.toNat = 181 then [Char.ofNat 924]
  else if (224 ≤ c.toNat ∧ c.toNat ≤ 254) ∧ c.toNat ≠ 247 then
    [Char.ofNat (c.toNat - 32)]
  else [c]

/-- The cleaned letter list of generate_team_code: the name lowercased
per character, the stop words the, of, and, republic removed at word
boundaries, then only alphabetic characters kept.  The word boundaries
of the embedded substitution scanner are the ASCII ones of isWordChar;
on ASCII inputs these agree with the Unicode boundaries of the re
module, and on the concrete Latin-1 inputs evaluated in the theorems
below no stop word occurs at all, so the substitution is the identity
under both boundary notions. -/
def cleanedLetters (name : String) : List Char :=
  let lowered := name.data.map pyLower
  let subbed := pySub [wordPat "the", wordPat "of", wordPat "and", wordPat "republic"]
    [] lowered
  subbed.filter pyIsAlpha

/-- generate_team_code of team_normalizer.py.  Python upper is applied
per character and can expand (223 becomes SS), so the result is the
concatenation of the per-character uppercasings. -/
def generate_team_code (name : String) : String :=
  let cleaned := cleanedLetters name
  if cleaned.length ≥ 3 then ⟨((cleaned.take 3).map pyUpperC).flatten⟩
  else ⟨(((cleaned ++ ['X', 'X']).take 3).map pyUpperC).flatten⟩

/-- generate_stadium_key of team_normalizer.py: strip known prefixes,
drop diacritics, keep lowercase alphanumerics. -/
def stripVenueWord (w : String) (cs : List Char) : List Char :=
  let wl := w.data.map Char.toLower
  if isPre wl (cs.map Char.toLower) then
    let rest := cs.drop wl.length
    let rest2 := rest.dropWhile Char.isWhitespace
    if rest2.length < rest.length then rest2 else cs
  else cs

def generate_stadium_key (stadium_name : String) : String :=
  if stadium_name = "" then ""
  else
    let k0 := stadium_name.data
    let k1 := ["Arena", "Est\xe1dio", "Estadio", "Stadium", "Allianz", "do", "de", "la"].foldl
      (fun cs w => stripVenueWord w cs) k0
    let k2 := (k1.map Char.toLower).map stripDiacritic
    let k3 := k2.filter (fun c => (c ≥ 'a' && c ≤ 'z') || c.isDigit)
    if k3 = [] then "stadium" else ⟨k3⟩

/-! ## Text parser: parse_score_details (data/ingestion/text_parser.py)

The three regular expressions of parse_score_details are deterministic
on every input (shrinking a greedy digit run always leaves a digit
where a non-digit is required), so they are embedded as direct
scanners. -/

/-- Leading run of ASCII digits. -/
def digitRun (cs : List Char) : List Char := cs.takeWhile Char.isDigit

/-- Numeric value of a digit run. -/
def digitsVal (ds : List Char) : ℕ :=
  ds.foldl (fun a c => a * 10 + (c.toNat - 48)) 0

def skipWs (cs : List Char) : List Char := cs.dropWhile Char.isWhitespace

/-- Anchored match of the penalty head pattern
(digits, ws, dash, ws, digits, ws, pen, optional dot); returns the two
numbers and the input after the match. -/
def parsePen (cs : List Char) : Option (ℕ × ℕ × List Char) :=
  let d1 := digitRun cs
  if d1 = [] then none
  else
    match skipWs (cs.drop d1.length) with
    | '-' :: r2 =>
      let r3 := skipWs r2
      let d2 := digitRun r3
      if d2 = [] then none
      else
        match skipWs (r3.drop d2.length) with
        | 'p' :: 'e' :: 'n' :: r5 =>
          let r6 := match r5 with
            | '.' :: t => t
            | t => t
          some (digitsVal d1, digitsVal d2, r6)
        | _ => none
    | _ => none

/-- re.findall of the score-pair pattern (digits, ws, dash, ws,
digits): leftmost non-overlapping matches. -/
def findScoresF : ℕ → List Char → List (ℕ × ℕ)
  | 0, _ => []
  | _ + 1, [] => []
  | fuel + 1, c :: rest =>
    if c.isDigit then
      let d1 := digitRun (c :: rest)
      match skipWs ((c :: rest).drop d1.length) with
      | '-' :: r2 =>
        let r3 := skipWs r2
        let d2 := digitRun r3
        if d2 = [] then findScoresF fuel rest
        else (digitsVal d1, digitsVal d2) :: findScoresF fuel (r3.drop d2.length)
      | _ => findScoresF fuel rest
    else findScoresF fuel rest

def findScores (cs : List Char) : List (ℕ × ℕ) := findScoresF cs.length cs

/-- Test for the substring a.e.t in the lowercased text. -/
def containsAET (cs : List Char) : Bool :=
  containsSub "a.e.t".data (cs.map Char.toLower)

/-- re.search of the trailing halftime pattern: an open paren, two
digit runs around a dash, a close paren, then only whitespace to the
end of the (stripped) text. -/
def findHTF : ℕ → List Char → Option (ℕ × ℕ)
  | 0, _ => none
  | _ + 1, [] => none
  | fuel + 1, c :: rest =>
    (if c == '(' then
      (let d1 := digitRun rest
       if d1 = [] then none
       else
         match skipWs (rest.drop d1.length) with
         | '-' :: r2 =>
           let r3 := skipWs r2
           let d2 := digitRun r3
           if d2 = [] then none
           else
             match r3.drop d2.length with
             | ')' :: r4 => if skipWs r4 = [] then some (digitsVal d1, digitsVal d2) else none
             | _ => none
         | _ => none)
     else none).orElse
    (fun _ => findHTF fuel rest)

def findHT (cs : List Char) : Option (ℕ × ℕ) := findHTF cs.length cs

structure ScoreDetails where
  score1 : ℕ
  score2 : ℕ
  score1_ht : Option ℕ
  score2_ht : Option ℕ
  score1_et : Option ℕ
  score2_et : Option ℕ
  score1_pen : Option ℕ
  score2_pen : Option ℕ
  is_aet : Bool
deriving DecidableEq

def parse_score_details (score_text : String) : ScoreDetails :=
  let text0 := pyStrip score_text.data
  let pr := parsePen text0
  let text := match pr with
    | some (_, _, rest) => pyStrip rest
    | none => text0
  let pen1 := pr.map (fun p => p.1)
  let pen2 := pr.map (fun p => p.2.1)
  let isAet := containsAET text
  match findScores text with
  | [] =>
    { score1 := 0, score2 := 0, score1_ht := none, score2_ht := none
      score1_et := none, score2_et := none
      score1_pen := pen1, score2_pen := pen2, is_aet := isAet }
  | (s1, s2) :: _ =>
    let ht := findHT text
    match pr with
    | some (p1, p2, _) =>
      { score1 := p1, score2 := p2
        score1_ht := ht.map (fun p => p.1), score2_ht := ht.map (fun p => p.2)
        score1_et := some s1, score2_et := some s2
        score1_pen := pen1, score2_pen := pen2, is_aet := isAet }
    | none =>
      if isAet then
        { score1 := s1, score2 := s2
          score1_ht := ht.map (fun p => p.1), score2_ht := ht.map (fun p => p.2)
          score1_et := some s1, score2_et := some s2
          score1_pen := none, score2_pen := none, is_aet := isAet }
      else
        { score1 := s1, score2 := s2
          score1_ht := ht.map (fun p => p.1), score2_ht := ht.map (fun p => p.2)
          score1_et := none, score2_et := none
          score1_pen := none, score2_pen := none, is_aet := isAet }

/-! ## Match validator (data/cleaning/match_validator.py)

Match dictionaries are modelled by MatchDoc: Option encodes key
presence, a team field is either a nested object or a plain value, and
a goal entry is either an object with its owngoal flag or a non-dict
value.  The messages of the two date/time strptime failures abbreviate
the Python exception text; no claim depends on those two strings. -/

inductive TeamField where
  | obj (name code : String)
  | raw (s : String)
deriving DecidableEq

inductive GoalEntry where
  | obj (owngoal : Bool)
  | raw
deriving DecidableEq

structure MatchDoc where
  team1 : Option TeamField
  team2 : Option TeamField
  score1 : Option ℤ
  score2 : Option ℤ
  date : Option String
  time : Option String
  score1i : Option ℤ
  score2i : Option ℤ
  goals1 : List GoalEntry
  goals2 : List GoalEntry
  knockout : Bool
  score1et : Option ℤ
  score2et : Option ℤ
  score1p : Option ℤ
  score2p : Option ℤ
deriving DecidableEq

structure ValidationResult where
  is_valid : Bool
  errors : List String
  warnings : List String
deriving DecidableEq

def ValidationResult.addError (r : ValidationResult) (msg : String) : ValidationResult :=
  { r with errors := r.errors ++ [msg], is_valid := false }

def ValidationResult.addWarning (r : ValidationResult) (msg : String) : ValidationResult :=
  { r with warnings := r.warnings ++ [msg] }

def ValidationResult.merge (r other : ValidationResult) : ValidationResult :=
  { is_valid := r.is_valid && other.is_valid
    errors := r.errors ++ other.errors
    warnings := r.warnings ++ other.warnings }

def emptyVR : ValidationResult := { is_valid := true, errors := [], warnings := [] }

/-- Name and code of a team field as _validate_teams reads them. -/
def teamNameCode : TeamField → String × String
  | TeamField.obj n c => (n, c)
  | TeamField.raw s => (s, "")

def validateTeams (m : MatchDoc) : ValidationResult :=
  let t1 := teamNameCode (m.team1.getD (TeamField.obj "" ""))
  let t2 := teamNameCode (m.team2.getD (TeamField.obj "" ""))
  let r := emptyVR
  let r := if t1.1 = "" then r.addError "Team 1 name is empty" else r
  let r := if t2.1 = "" then r.addError "Team 2 name is empty" else r
  let r := if t1.1 ≠ "" ∧ t2.1 ≠ "" ∧ t1.1 = t2.1 then
      r.addError ("Team 1 and Team 2 are the same: " ++ t1.1) else r
  let r := if t1.2 ≠ "" ∧ t1.2.length ≠ 3 then
      r.addWarning ("Team 1 code \x27" ++ t1.2 ++ "\x27 is not 3 characters") else r
  let r := if t2.2 ≠ "" ∧ t2.2.length ≠ 3 then
      r.addWarning ("Team 2 code \x27" ++ t2.2 ++ "\x27 is not 3 characters") else r
  let r := if t1.1 ≠ "" ∧ (get_team_info t1.1).isNone then
      r.addWarning ("Team \x27" ++ t1.1 ++ "\x27 not found in database") else r
  let r := if t2.1 ≠ "" ∧ (get_team_info t2.1).isNone then
      r.addWarning ("Team \x27" ++ t2.1 ++ "\x27 not found in database") else r
  r

/-- Message text of a possibly missing int (Python str(None)). -/
def optIntText : Option ℤ → String
  | none => "None"
  | some n => toString n

def validateScores (m : MatchDoc) (is_knockout : Bool) : ValidationResult :=
  let r := emptyVR
  let r := match m.score1 with
    | some n => if n < 0 then r.addError ("Invalid score1: " ++ toString n) else r
    | none => r.addError ("Invalid score1: " ++ optIntText m.score1)
  let r := match m.score2 with
    | some n => if n < 0 then r.addError ("Invalid score2: " ++ toString n) else r
    | none => r.addError ("Invalid score2: " ++ optIntText m.score2)
  match m.score1i, m.score2i with
  | some s1i, some s2i =>
    let r := if s1i < 0 then r.addError ("Invalid halftime score1i: " ++ toString s1i) else r
    let r := if s2i < 0 then r.addError ("Invalid halftime score2i: " ++ toString s2i) else r
    let r := match m.score1 with
      | some s1 =>
        if s1i > s1 ∧ ¬is_knockout then
          r.addWarning ("Halftime score1 (" ++ toString s1i ++ ") > final score1 (" ++
            toString s1 ++ ")")
        else r
      | none => r
    let r := match m.score2 with
      | some s2 =>
        if s2i > s2 ∧ ¬is_knockout then
          r.addWarning ("Halftime score2 (" ++ toString s2i ++ ") > final score2 (" ++
            toString s2 ++ ")")
        else r
      | none => r
    r
  | _, _ => r

/-- Gregorian leap year (proleptic, as datetime uses). -/
def isLeap (y : ℕ) : Bool := y % 4 == 0 && (y % 100 != 0 || y % 400 == 0)

def daysInMonth (y m : ℕ) : ℕ :=
  if m = 2 then (if isLeap y then 29 else 28)
  else if m = 4 ∨ m = 6 ∨ m = 9 ∨ m = 11 then 30
  else 31

/-- The date string has shape dddd-dd-dd. -/
def dateShape (cs : List Char) : Bool :=
  match cs with
  | [y1, y2, y3, y4, h1, m1, m2, h2, d1, d2] =>
    y1.isDigit && y2.isDigit && y3.isDigit && y4.isDigit && h1 == '-' &&
    m1.isDigit && m2.isDigit && h2 == '-' && d1.isDigit && d2.isDigit
  | _ => false

/-- Field values of a dddd-dd-dd date string. -/
def dateParts (cs : List Char) : ℕ × ℕ × ℕ :=
  (digitsVal (cs.take 4), digitsVal ((cs.drop 5).take 2), digitsVal ((cs.drop 8).take 2))

/-- strptime with format Y-m-d accepts the date iff the year is in
1..9999, the month in 1..12 and the day fits the month. -/
def validCalendarDate (y m d : ℕ) : Bool :=
  1 ≤ y && y ≤ 9999 && 1 ≤ m && m ≤ 12 && 1 ≤ d && d ≤ daysInMonth y m

def validateDate (date_str : String) : ValidationResult :=
  if date_str = "" then emptyVR.addError "Date is empty"
  else if !dateShape date_str.data then
    emptyVR.addError ("Invalid date format: " ++ date_str ++ ". Expected YYYY-MM-DD")
  else
    let p := dateParts date_str.data
    if validCalendarDate p.1 p.2.1 p.2.2 then emptyVR
    else emptyVR.addError ("Invalid date: " ++ date_str ++ ".")

def timeShape (cs : List Char) : Bool :=
  match cs with
  | [h1, h2, c, m1, m2] => h1.isDigit && h2.isDigit && c == ':' && m1.isDigit && m2.isDigit
  | _ => false

def validateTime (time_str : String) : ValidationResult :=
  if time_str = "" then emptyVR
  else if !timeShape time_str.data then
    emptyVR.addWarning ("Time format should be HH:MM: " ++ time_str)
  else
    let h := digitsVal (time_str.data.take 2)
    let mi := digitsVal ((time_str.data.drop 3).take 2)
    if h ≤ 23 && mi ≤ 59 then emptyVR
    else emptyVR.addWarning ("Invalid time: " ++ time_str)

/-- Per-team goal totals with each own goal counted for the opposing
team.  The source computes these counts (and then does not use them);
the claims about the goals check refer to this quantity. -/
def redirectedCounts (goals1 goals2 : List GoalEntry) : ℕ × ℕ :=
  let own : GoalEntry → Bool := fun g =>
    match g with
    | GoalEntry.obj og => og
    | GoalEntry.raw => false
  ((goals1.filter (fun g => !own g)).length + (goals2.filter own).length,
   (goals2.filter (fun g => !own g)).length + (goals1.filter own).length)

/-- The goals-mismatch warning text. -/
def goalsMismatchMsg (m : MatchDoc) : String :=
  "Goals count mismatch: " ++ toString (m.goals1.length + m.goals2.length) ++
    " goals listed, but score is " ++ toString (m.score1.getD 0) ++ "-" ++
    toString (m.score2.getD 0) ++
    " (total: " ++ toString (m.score1.getD 0 + m.score2.getD 0) ++ ")"

def validateGoalsConsistency (m : MatchDoc) : ValidationResult :=
  let score1 := m.score1.getD 0
  let score2 := m.score2.getD 0
  if m.goals1 = [] ∧ m.goals2 = [] then emptyVR
  else
    let totalListed := m.goals1.length + m.goals2.length
    let totalScore := score1 + score2
    if totalListed > 0 ∧ (totalListed : ℤ) ≠ totalScore then
      emptyVR.addWarning (goalsMismatchMsg m)
    else emptyVR

def validateKnockoutFields (m : MatchDoc) : ValidationResult :=
  let r := emptyVR
  let r := match m.score1et, m.score2et with
    | some e1, some e2 =>
      if e1 = e2 ∧ (m.score1p.isNone ∨ m.score2p.isNone) then
        r.addWarning ("Match ended level after ET (" ++ toString e1 ++ "-" ++
          toString e2 ++ ") but no penalty scores provided")
      else r
    | _, _ => r
  match m.score1p, m.score2p with
  | some p1, some p2 =>
    if p1 = p2 then
      r.addError ("Penalty shootout ended level: " ++ toString p1 ++ "-" ++
        toString p2 ++ ". This should not happen.")
    else r
  | _, _ => r

/-- Presence of the five required keys. -/
def requiredPresent (m : MatchDoc) : Bool :=
  m.team1.isSome && m.team2.isSome && m.score1.isSome && m.score2.isSome && m.date.isSome

/-- The missing-required-field errors, in source order. -/
def missingFieldErrors (m : MatchDoc) : List String :=
  (if m.team1.isNone then ["Missing required field: team1"] else []) ++
  (if m.team2.isNone then ["Missing required field: team2"] else []) ++
  (if m.score1.isNone then ["Missing required field: score1"] else []) ++
  (if m.score2.isNone then ["Missing required field: score2"] else []) ++
  (if m.date.isNone then ["Missing required field: date"] else [])

def validate_match (m : MatchDoc) (is_knockout : Bool := false) : ValidationResult :=
  let req := missingFieldErrors m
  if req ≠ [] then { is_valid := false, errors := req, warnings := [] }
  else
    let r := emptyVR
    let r := r.merge (validateTeams m)
    let r := r.merge (validateScores m is_knockout)
    let r := r.merge (validateDate (m.date.getD ""))
    let r := match m.time with
      | some t => if t ≠ "" then r.merge (validateTime t) else r
      | none => r
    let r := r.merge (validateGoalsConsistency m)
    if is_knockout ∨ m.knockout then r.merge (validateKnockoutFields m) else r

/-! ## Tournament converter (data/pipelines/worldcup_converter.py) -/

structure ParsedGoal where
  scorer : String
  minute : ℤ
  offset : Option ℤ
  is_penalty : Bool
  is_own_goal : Bool
deriving DecidableEq

structure ParsedMatch where
  match_num : Option ℤ
  date_str : String
  time_str : Option String
  team1 : String
  team2 : String
  score1 : ℤ
  score2 : ℤ
  score1_ht : Option ℤ
  score2_ht : Option ℤ
  score1_et : Option ℤ
  score2_et : Option ℤ
  score1_pen : Option ℤ
  score2_pen : Option ℤ
  is_aet : Bool
  goals1 : List ParsedGoal
  goals2 : List ParsedGoal
  stadium : Option String
  city : Option String
  group : Option String
  round_name : Option String
  is_knockout : Bool
deriving DecidableEq

structure JsonTeam where
  name : String
  code : String
deriving DecidableEq

structure JsonGoal where
  name : String
  minute : ℤ
  offset : Option ℤ
  score1 : ℤ
  score2 : ℤ
  owngoal : Bool
  penalty : Bool
deriving DecidableEq

structure JsonMatch where
  num : ℤ
  date : String
  time : String
  team1 : JsonTeam
  team2 : JsonTeam
  score1 : ℤ
  score2 : ℤ
  score1i : Option ℤ
  score2i : Option ℤ
  goals1 : List JsonGoal
  goals2 : List JsonGoal
  group : Option String
  knockout : Bool
  score1et : Option ℤ
  score2et : Option ℤ
  score1p : Option ℤ
  score2p : Option ℤ
  stadium : Option (String × String)
  city : Option String
deriving DecidableEq

def convert_goal_to_json (goal : ParsedGoal) (is_team1_goal : Bool)
    (current_score1 current_score2 : ℤ) : JsonGoal :=
  if goal.is_own_goal then
    if is_team1_goal then
      { name := goal.scorer, minute := goal.minute, offset := goal.offset
        score1 := current_score1, score2 := current_score2 + 1
        owngoal := true, penalty := goal.is_penalty }
    else
      { name := goal.scorer, minute := goal.minute, offset := goal.offset
        score1 := current_score1 + 1, score2 := current_score2
        owngoal := true, penalty := goal.is_penalty }
  else
    if is_team1_goal then
      { name := goal.scorer, minute := goal.minute, offset := goal.offset
        score1 := current_score1 + 1, score2 := current_score2
        owngoal := false, penalty := goal.is_penalty }
    else
      { name := goal.scorer, minute := goal.minute, offset := goal.offset
        score1 := current_score1, score2 := current_score2 + 1
        owngoal := false, penalty := goal.is_penalty }

/-- Sort key order of the goal merge: (minute, offset or 0), ascending. -/
def goalKeyLe (x y : ParsedGoal × Bool) : Bool :=
  (decide (x.1.minute < y.1.minute)) ||
  ((x.1.minute == y.1.minute) && decide (x.1.offset.getD 0 ≤ y.1.offset.getD 0))

/-- Score update of one replayed goal: an own goal increments the
opposing team, any other goal the scoring team. -/
def applyGoal (s : ℤ × ℤ) (gb : ParsedGoal × Bool) : ℤ × ℤ :=
  if gb.1.is_own_goal then (if gb.2 then (s.1, s.2 + 1) else (s.1 + 1, s.2))
  else (if gb.2 then (s.1 + 1, s.2) else (s.1, s.2 + 1))

/-- The conversion loop over the sorted merged goals, carrying the
running score and splitting the stamped goals by team. -/
def goalLoop : List (ParsedGoal × Bool) → ℤ × ℤ → List JsonGoal × List JsonGoal
  | [], _ => ([], [])
  | gb :: rest, s =>
    let jg := convert_goal_to_json gb.1 gb.2 s.1 s.2
    let tails := goalLoop rest (applyGoal s gb)
    if gb.2 then (jg :: tails.1, tails.2) else (tails.1, jg :: tails.2)

/-- Both teams goal lists, each goal tagged with its side. -/
def mergedGoals (m : ParsedMatch) : List (ParsedGoal × Bool) :=
  m.goals1.map (fun g => (g, true)) ++ m.goals2.map (fun g => (g, false))

/-- Python x or y for an optional int (0 counts as absent). -/
def orInt (o : Option ℤ) (dflt : ℤ) : ℤ :=
  match o with
  | some n => if n = 0 then dflt else n
  | none => dflt

/-- Python x or y for an optional string (the empty string counts as
absent). -/
def orStr (o : Option String) (dflt : String) : String :=
  match o with
  | some s => if s = "" then dflt else s
  | none => dflt

/-- Python truthiness filter on an optional string. -/
def truthy (o : Option String) : Option String :=
  match o with
  | some s => if s = "" then none else some s
  | none => none

def convert_match_to_json (m : ParsedMatch) (match_num : ℤ) : JsonMatch :=
  let t1 := get_team_info m.team1
  let t2 := get_team_info m.team2
  let team1 : JsonTeam := match t1 with
    | some i => { name := i.name, code := i.code }
    | none => { name := m.team1, code := "???" }
  let team2 : JsonTeam := match t2 with
    | some i => { name := i.name, code := i.code }
    | none => { name := m.team2, code := "???" }
  let sorted := pySort goalKeyLe (mergedGoals m)
  let gl := goalLoop sorted (0, 0)
  { num := orInt m.match_num match_num
    date := m.date_str
    time := orStr m.time_str "00:00"
    team1 := team1
    team2 := team2
    score1 := m.score1
    score2 := m.score2
    score1i := m.score1_ht
    score2i := m.score2_ht
    goals1 := gl.1
    goals2 := gl.2
    group := truthy m.group
    knockout := m.is_knockout
    score1et := if m.is_knockout then m.score1_et else none
    score2et := if m.is_knockout then m.score2_et else none
    score1p := if m.is_knockout then m.score1_pen else none
    score2p := if m.is_knockout then m.score2_pen else none
    stadium := (truthy m.stadium).map (fun s => (generate_stadium_key s, s))
    city := truthy m.city }

/-! ## Spec-side description of the running-score stamping (section 4.4
of the specification): replay the sorted merged list in order and stamp
each goal with the score as it stands immediately after that goal is
applied. -/

/-- Score after replaying a whole list of tagged goals from 0-0. -/
def specReplay (gs : List (ParsedGoal × Bool)) : ℤ × ℤ :=
  gs.foldl applyGoal (0, 0)

/-- A goal object stamped with a given score snapshot. -/
def stampGoal (gb : ParsedGoal × Bool) (s : ℤ × ℤ) : JsonGoal :=
  { name := gb.1.scorer, minute := gb.1.minute, offset := gb.1.offset
    score1 := s.1, score2 := s.2
    owngoal := gb.1.is_own_goal, penalty := gb.1.is_penalty }

/-- Spec-side stamped list: the i-th tagged goal carries the replay
score of the prefix up to and including itself.  The first argument is
the already-replayed prefix score. -/
def specStamped (s : ℤ × ℤ) : List (ParsedGoal × Bool) → List (JsonGoal × Bool)
  | [] => []
  | gb :: rest =>
    let s2 := applyGoal s gb
    (stampGoal gb s2, gb.2) :: specStamped s2 rest

/-- Per-side projection of a tagged stamped list. -/
def sideGoals (b : Bool) (l : List (JsonGoal × Bool)) : List JsonGoal :=
  (l.filter (fun p => p.2 == b)).map (fun p => p.1)

/-- Head-to-head statistics with the two perspectives exchanged. -/
def swapStats (s : H2HStats) : H2HStats :=
  { total_matches := s.total_matches, wins_a := s.wins_b, wins_b := s.wins_a
    draws := s.draws, goals_a := s.goals_b, goals_b := s.goals_a
    recent_matches := s.recent_matches }

/-- Property claimed of one transition row: with a positive sample the
three probabilities sum to 1 up to the three per-entry roundings, with
an empty sample they are all zero. -/
def transRowOk (r : TransRow) : Prop :=
  (r.sample_size > 0 → |r.w + r.d + r.l - 1| ≤ 3/200) ∧
  (r.sample_size = 0 → r.w = 0 ∧ r.d = 0 ∧ r.l = 0)

/-! # Theorems -/

/-! ## Rounding lemmas -/

theorem roundHalfEven_def (q : ℚ) :
    roundHalfEven q =
      if q - (ratFloorZ q : ℚ) < 1/2 then ratFloorZ q
      else if 1/2 < q - (ratFloorZ q : ℚ) then ratFloorZ q + 1
      else if ratFloorZ q % 2 = 0 then ratFloorZ q else ratFloorZ q + 1 := rfl

theorem ratFloorZ_le (q : ℚ) : (ratFloorZ q : ℚ) ≤ q := by
  have hd0 : (0 : ℤ) < (q.den : ℤ) := by exact_mod_cast q.den_pos
  have hden : (0 : ℚ) < (q.den : ℚ) := by exact_mod_cast hd0
  have h := Int.ediv_add_emod q.num (q.den : ℤ)
  have hr0 : (0 : ℤ) ≤ q.num % (q.den : ℤ) := Int.emod_nonneg q.num (ne_of_gt hd0)
  have key : (ratFloorZ q) * (q.den : ℤ) ≤ q.num := by
    have h2 : (q.den : ℤ) * (ratFloorZ q) = q.num - q.num % (q.den : ℤ) := by
      unfold ratFloorZ; linarith
    nlinarith
  have keyq : ((ratFloorZ q : ℚ)) * (q.den : ℚ) ≤ (q.num : ℚ) := by exact_mod_cast key
  have := (le_div_iff₀ hden).mpr keyq
  rwa [Rat.num_div_den q] at this

theorem lt_ratFloorZ_add_one (q : ℚ) : q < (ratFloorZ q : ℚ) + 1 := by
  have hd0 : (0 : ℤ) < (q.den : ℤ) := by exact_mod_cast q.den_pos
  have hden : (0 : ℚ) < (q.den : ℚ) := by exact_mod_cast hd0
  have h := Int.ediv_add_emod q.num (q.den : ℤ)
  have hrlt : q.num % (q.den : ℤ) < (q.den : ℤ) := Int.emod_lt_of_pos q.num hd0
  have key : q.num < (ratFloorZ q + 1) * (q.den : ℤ) := by
    have h2 : (q.den : ℤ) * (ratFloorZ q) = q.num - q.num % (q.den : ℤ) := by
      unfold ratFloorZ; linarith
    nlinarith
  have keyq : (q.num : ℚ) < ((ratFloorZ q : ℚ) + 1) * (q.den : ℚ) := by exact_mod_cast key
  have := (div_lt_iff₀ hden).mpr keyq
  rwa [Rat.num_div_den q] at this

theorem abs_roundHalfEven_sub (q : ℚ) : |(roundHalfEven q : ℚ) - q| ≤ 1/2 := by
  have h1 := ratFloorZ_le q
  have h2 := lt_ratFloorZ_add_one q
  rw [roundHalfEven_def]
  split_ifs with hlt hgt hev
  · rw [abs_le]; constructor <;> linarith
  · rw [abs_le]; push_cast; constructor <;> linarith
  · rw [abs_le]
    have heq : q - (ratFloorZ q : ℚ) = 1/2 := le_antisymm (not_lt.mp hgt) (not_lt.mp hlt)
    constructor <;> linarith
  · rw [abs_le]
    have heq : q - (ratFloorZ q : ℚ) = 1/2 := le_antisymm (not_lt.mp hgt) (not_lt.mp hlt)
    push_cast
    constructor <;> linarith

theorem roundHalfEven_ge (a : ℤ) (q : ℚ) (h : (a : ℚ) ≤ q) : a ≤ roundHalfEven q := by
  have h2 := lt_ratFloorZ_add_one q
  have haf : a ≤ ratFloorZ q := by
    have hc : (a : ℚ) < ((ratFloorZ q + 1 : ℤ) : ℚ) := by push_cast; linarith
    have : a < ratFloorZ q + 1 := by exact_mod_cast hc
    omega
  have : ratFloorZ q ≤ roundHalfEven q := by
    rw [roundHalfEven_def]; split_ifs <;> omega
  omega

theorem roundHalfEven_le (b : ℤ) (q : ℚ) (h : q ≤ (b : ℚ)) : roundHalfEven q ≤ b := by
  have h1 := ratFloorZ_le q
  have hfb : ratFloorZ q ≤ b := by exact_mod_cast le_trans h1 h
  rcases lt_or_eq_of_le hfb with hlt | heq
  · have : roundHalfEven q ≤ ratFloorZ q + 1 := by
      rw [roundHalfEven_def]; split_ifs <;> omega
    omega
  · have hq : q = (ratFloorZ q : ℚ) := le_antisymm (heq ▸ h) h1
    have hz : roundHalfEven q = ratFloorZ q := by
      rw [roundHalfEven_def]
      have hr : q - (ratFloorZ q : ℚ) < 1/2 := by rw [← hq]; norm_num
      rw [if_pos hr]
    omega

theorem abs_roundTo_sub (q : ℚ) (n : ℕ) : |roundTo q n - q| ≤ 1 / (2 * 10 ^ n) := by
  have hp : (0 : ℚ) < 10 ^ n := by positivity
  have h := abs_roundHalfEven_sub (q * 10 ^ n)
  unfold roundTo
  have key : (roundHalfEven (q * 10 ^ n) : ℚ) / 10 ^ n - q =
      ((roundHalfEven (q * 10 ^ n) : ℚ) - q * 10 ^ n) / 10 ^ n := by
    field_simp
    ring
  rw [key, abs_div, abs_of_pos hp, div_le_div_iff₀ hp (by positivity)]
  calc |(roundHalfEven (q * 10 ^ n) : ℚ) - q * 10 ^ n| * (2 * 10 ^ n)
      ≤ (1/2) * (2 * 10 ^ n) := by
        apply mul_le_mul_of_nonneg_right h (by positivity)
    _ = 1 * 10 ^ n := by ring

theorem roundTo_ge (a : ℤ) (q : ℚ) (n : ℕ) (h : (a : ℚ) ≤ q) : (a : ℚ) ≤ roundTo q n := by
  have hp : (0 : ℚ) < 10 ^ n := by positivity
  have h1 : ((a * 10 ^ n : ℤ) : ℚ) ≤ q * 10 ^ n := by
    push_cast
    exact mul_le_mul_of_nonneg_right h (le_of_lt hp)
  have h2 := roundHalfEven_ge (a * 10 ^ n) (q * 10 ^ n) h1
  unfold roundTo
  rw [le_div_iff₀ hp]
  calc (a : ℚ) * 10 ^ n = ((a * 10 ^ n : ℤ) : ℚ) := by push_cast; ring
    _ ≤ (roundHalfEven (q * 10 ^ n) : ℚ) := by exact_mod_cast h2

theorem roundTo_le (b : ℤ) (q : ℚ) (n : ℕ) (h : q ≤ (b : ℚ)) : roundTo q n ≤ (b : ℚ) := by
  have hp : (0 : ℚ) < 10 ^ n := by positivity
  have h1 : q * 10 ^ n ≤ ((b * 10 ^ n : ℤ) : ℚ) := by
    push_cast
    exact mul_le_mul_of_nonneg_right h (le_of_lt hp)
  have h2 := roundHalfEven_le (b * 10 ^ n) (q * 10 ^ n) h1
  unfold roundTo
  rw [div_le_iff₀ hp]
  calc (roundHalfEven (q * 10 ^ n) : ℚ) ≤ ((b * 10 ^ n : ℤ) : ℚ) := by exact_mod_cast h2
    _ = (b : ℚ) * 10 ^ n := by push_cast; ring

theorem ratFloorZ_intCast (z : ℤ) : ratFloorZ (z : ℚ) = z := by
  unfold ratFloorZ
  rw [Rat.num_intCast, Rat.den_intCast]
  simp

theorem roundHalfEven_intCast (z : ℤ) : roundHalfEven (z : ℚ) = z := by
  rw [roundHalfEven_def, ratFloorZ_intCast]
  have h : (z : ℚ) - (z : ℚ) < 1/2 := by norm_num
  rw [if_pos h]

theorem roundTo_intCast (z : ℤ) (n : ℕ) : roundTo ((z : ℚ)) n = z := by
  have hp : (0 : ℚ) < 10 ^ n := by positivity
  unfold roundTo
  have h : (z : ℚ) * 10 ^ n = ((z * 10 ^ n : ℤ) : ℚ) := by push_cast; ring
  rw [h, roundHalfEven_intCast]
  push_cast
  field_simp

/-! ## List helper lemmas -/

theorem getLastD_mem : ∀ (l : List ℚ) (d : ℚ), l ≠ [] → l.getLastD d ∈ l
  | [], _, h => absurd rfl h
  | [a], d, _ => by simp
  | a :: b :: t, d, _ => by
    have hrec := getLastD_mem (b :: t) a (by simp)
    rw [List.getLastD_cons]
    exact List.mem_cons_of_mem a hrec

theorem mem_insertOrd (le : α → α → Bool) (x a : α) (l : List α) :
    a ∈ insertOrd le x l ↔ a = x ∨ a ∈ l := by
  induction l with
  | nil => simp [insertOrd]
  | cons y ys ih =>
    unfold insertOrd
    split_ifs with h
    · exact List.mem_cons
    · rw [List.mem_cons, ih, List.mem_cons]
      tauto

theorem mem_pySort (le : α → α → Bool) (a : α) (l : List α) :
    a ∈ pySort le l ↔ a ∈ l := by
  induction l with
  | nil => simp [pySort]
  | cons x xs ih =>
    unfold pySort
    rw [mem_insertOrd, List.mem_cons, ih]

theorem pairwise_insertOrd (le : α → α → Bool)
    (htotal : ∀ a b, le a b || le b a)
    (htrans : ∀ a b c, le a b = true → le b c = true → le a c = true)
    (x : α) (l : List α) (hl : l.Pairwise (fun a b => le a b = true)) :
    (insertOrd le x l).Pairwise (fun a b => le a b = true) := by
  induction l with
  | nil => simp [insertOrd]
  | cons y ys ih =>
    unfold insertOrd
    rcases List.pairwise_cons.mp hl with ⟨hy, hys⟩
    split_ifs with h
    · refine List.pairwise_cons.mpr ⟨?_, hl⟩
      intro b hb
      rcases List.mem_cons.mp hb with h1 | h2
      · exact h1 ▸ h
      · exact htrans x y b h (hy b h2)
    · refine List.pairwise_cons.mpr ⟨?_, ih hys⟩
      intro b hb
      rcases (mem_insertOrd le x b ys).mp hb with h1 | h2
      · subst h1
        rcases Bool.or_eq_true_iff.mp (htotal b y) with h3 | h4
        · exact absurd h3 h
        · exact h4
      · exact hy b h2

theorem pairwise_pySort (le : α → α → Bool)
    (htotal : ∀ a b, le a b || le b a)
    (htrans : ∀ a b c, le a b = true → le b c = true → le a c = true)
    (l : List α) : (pySort le l).Pairwise (fun a b => le a b = true) := by
  induction l with
  | nil => simp [pySort]
  | cons x xs ih => exact pairwise_insertOrd le htotal htrans x (pySort le xs) ih

/-! ## C1: predictor probabilities sum to 100 -/

theorem probabilityPair_sum_bound (fa fb : ℚ) :
    |(probabilityPair fa fb).1 + (probabilityPair fa fb).2 - 100| ≤ 1/10 := by
  unfold probabilityPair
  split_ifs with h
  · norm_num
  · simp only
    have hx : fa / (fa + fb) * 100 + fb / (fa + fb) * 100 = 100 := by
      have e : fa / (fa + fb) * 100 + fb / (fa + fb) * 100 =
          (fa + fb) / (fa + fb) * 100 := by ring
      rw [e, div_self h]
      norm_num
    have h1 := abs_roundTo_sub (fa / (fa + fb) * 100) 1
    have h2 := abs_roundTo_sub (fb / (fa + fb) * 100) 1
    have e2 : roundTo (fa / (fa + fb) * 100) 1 + roundTo (fb / (fa + fb) * 100) 1 - 100 =
        (roundTo (fa / (fa + fb) * 100) 1 - fa / (fa + fb) * 100) +
        (roundTo (fb / (fa + fb) * 100) 1 - fb / (fa + fb) * 100) := by
      linarith [hx]
    rw [e2]
    calc |(roundTo (fa / (fa + fb) * 100) 1 - fa / (fa + fb) * 100) +
        (roundTo (fb / (fa + fb) * 100) 1 - fb / (fa + fb) * 100)|
        ≤ |roundTo (fa / (fa + fb) * 100) 1 - fa / (fa + fb) * 100| +
          |roundTo (fb / (fa + fb) * 100) 1 - fb / (fa + fb) * 100| := abs_add _ _
      _ ≤ 1 / (2 * 10 ^ 1) + 1 / (2 * 10 ^ 1) := add_le_add h1 h2
      _ = 1/10 := by norm_num

/-- C1: for every pair of team codes and every match list, the two
probabilities returned by predict_match (each side's weighted score
divided by the sum of both, times 100, rounded to 1 decimal) sum to
100.0 up to the 0.1 allowance of the two roundings, and the final
normalization block returns exactly 50.0 and 50.0 when the sum of the
two weighted scores is 0. -/
theorem predict_match_probabilities_sum_to_100 :
    (∀ (a b : String) (ms : List ApiMatch),
      |(predict_match a b ms).probability_a + (predict_match a b ms).probability_b - 100|
        ≤ 1/10) ∧
    (∀ fa fb : ℚ, fa + fb = 0 → probabilityPair fa fb = (50, 50)) := by
  constructor
  · intro a b ms
    have h := probabilityPair_sum_bound (finalScoreA a b ms) (finalScoreB a b ms)
    simpa [predict_match] using h
  · intro fa fb h
    unfold probabilityPair
    rw [if_pos h]

/-- C1 witness: the zero-total branch of the final normalization,
exercised at the concrete weighted scores 0 and 0. -/
theorem predict_match_probabilities_sum_to_100_witness :
    (0 : ℚ) + 0 = 0 ∧ probabilityPair 0 0 = (50, 50) :=
  ⟨by norm_num, predict_match_probabilities_sum_to_100.2 0 0 (by norm_num)⟩

/-! ## C6: momentum EMA bounds and seeding -/

theorem matchPoints_cases (c : String) (m : ApiMatch) :
    (matchPoints c m).1 = 3 ∨ (matchPoints c m).1 = 0 ∨ (matchPoints c m).1 = 1 := by
  unfold matchPoints
  by_cases h1 : m.team_a_code == c <;> simp only [h1] <;> split_ifs <;> simp

theorem matchPoints_cast_bounds (c : String) (m : ApiMatch) :
    0 ≤ (((matchPoints c m).1 : ℚ)) ∧ (((matchPoints c m).1 : ℚ)) ≤ 3 := by
  rcases matchPoints_cases c m with h | h | h <;> rw [h] <;> norm_num

theorem roundTo_bounds_03 (q : ℚ) (h0 : 0 ≤ q) (h3 : q ≤ 3) :
    0 ≤ roundTo q 2 ∧ roundTo q 2 ≤ 3 := by
  constructor
  · have := roundTo_ge 0 q 2 (by exact_mod_cast h0)
    exact_mod_cast this
  · have := roundTo_le 3 q 2 (by exact_mod_cast h3)
    exact_mod_cast this

theorem emaHistory_bounds (k : ℚ) (hk0 : 0 ≤ k) (hk1 : k ≤ 1) :
    ∀ (ps : List ℚ) (e : ℚ), 0 ≤ e → e ≤ 3 → (∀ p ∈ ps, 0 ≤ p ∧ p ≤ 3) →
    ∀ x ∈ emaHistory k e ps, 0 ≤ x ∧ x ≤ 3 := by
  intro ps
  induction ps with
  | nil => intro e _ _ _ x hx; simp [emaHistory] at hx
  | cons p ps ih =>
    intro e he0 he3 hps x hx
    have hp := hps p (List.mem_cons_self p ps)
    have he20 : 0 ≤ p * k + e * (1 - k) := by
      have := mul_nonneg hp.1 hk0
      have := mul_nonneg he0 (by linarith : (0:ℚ) ≤ 1 - k)
      linarith
    have he23 : p * k + e * (1 - k) ≤ 3 := by
      have h1 : p * k ≤ 3 * k := mul_le_mul_of_nonneg_right hp.2 hk0
      have h2 : e * (1 - k) ≤ 3 * (1 - k) :=
        mul_le_mul_of_nonneg_right he3 (by linarith)
      linarith
    unfold emaHistory at hx
    rcases List.mem_cons.mp hx with h1 | h2
    · subst h1
      exact roundTo_bounds_03 _ he20 he23
    · exact ih (p * k + e * (1 - k)) he20 he23
        (fun q hq => hps q (List.mem_cons_of_mem p hq)) x h2

/-- C6: per-match points are always drawn from the set containing 0, 1
and 3, and for every team code and match list the current momentum
returned by calculate_momentum (default span 5) lies in the closed
interval from 0 to 3; the EMA series is seeded with the first point
value (not zero) and uses the smoothing constant k = 2/(span+1); and a
team whose only match was won gets current momentum exactly 3. -/
theorem calculate_momentum_bounds_and_seed :
    (∀ (c : String) (ms : List ApiMatch),
      0 ≤ (calculate_momentum c ms).current_momentum ∧
      (calculate_momentum c ms).current_momentum ≤ 3) ∧
    (∀ (c : String) (ms : List ApiMatch) (m0 : ApiMatch) (rest : List ApiMatch),
      pySort yearAsc (teamFilter c ms) = m0 :: rest →
      (calculate_momentum c ms).current_momentum =
        (roundTo ((matchPoints c m0).1 : ℚ) 2 ::
          emaHistory (2 / (((5:ℕ) : ℚ) + 1)) ((matchPoints c m0).1 : ℚ)
            (rest.map (fun m => ((matchPoints c m).1 : ℚ)))).getLastD 0) ∧
    (∀ (c : String) (ms : List ApiMatch) (m : ApiMatch),
      teamFilter c ms = [m] → (matchPoints c m).1 = 3 →
      (calculate_momentum c ms).current_momentum = 3) := by
  refine ⟨?_, ?_, ?_⟩
  · intro c ms
    unfold calculate_momentum
    rcases h : pySort yearAsc (teamFilter c ms) with _ | ⟨m0, rest⟩
    · simp
    · simp only
      set p0 : ℚ := ((matchPoints c m0).1 : ℚ) with hp0
      have hm0 := matchPoints_cast_bounds c m0
      have hk0 : (0:ℚ) ≤ 2 / ((5:ℕ) + 1) := by norm_num
      have hk1 : (2:ℚ) / ((5:ℕ) + 1) ≤ 1 := by norm_num
      set emas := roundTo p0 2 ::
        emaHistory (2 / ((5:ℕ) + 1)) p0
          (rest.map (fun m => ((matchPoints c m).1 : ℚ))) with hemas
      have hmem : emas.getLastD 0 ∈ emas := getLastD_mem emas 0 (by simp [hemas])
      have hall : ∀ x ∈ emas, 0 ≤ x ∧ x ≤ 3 := by
        intro x hx
        rcases List.mem_cons.mp hx with h1 | h2
        · subst h1
          exact roundTo_bounds_03 p0 hm0.1 hm0.2
        · refine emaHistory_bounds _ hk0 hk1 _ p0 hm0.1 hm0.2 ?_ x h2
          intro p hp
          rcases List.mem_map.mp hp with ⟨m, _, hm⟩
          subst hm
          exact matchPoints_cast_bounds c m
      exact hall _ hmem
  · intro c ms m0 rest h
    unfold calculate_momentum
    rw [h]
  · intro c ms m h3 hw
    have hsort : pySort yearAsc (teamFilter c ms) = [m] := by
      rw [h3]
      rfl
    unfold calculate_momentum
    rw [hsort]
    simp only [List.map_nil, emaHistory, List.getLastD]
    rw [hw]
    have : ((3:ℕ) : ℚ) = ((3:ℤ) : ℚ) := by norm_num
    rw [this, roundTo_intCast]
    norm_num

/-- C6 witness: a team whose only match is a 2-0 win has current
momentum exactly 3. -/
theorem calculate_momentum_bounds_and_seed_witness :
    teamFilter "AAA" [ApiMatch.mk "Aland" "Bland" "AAA" "BBB" 2 0 [] "2000" "Cup"] =
      [ApiMatch.mk "Aland" "Bland" "AAA" "BBB" 2 0 [] "2000" "Cup"] ∧
    (matchPoints "AAA" (ApiMatch.mk "Aland" "Bland" "AAA" "BBB" 2 0 [] "2000" "Cup")).1 = 3 ∧
    (calculate_momentum "AAA"
      [ApiMatch.mk "Aland" "Bland" "AAA" "BBB" 2 0 [] "2000" "Cup"]).current_momentum = 3 :=
  ⟨by decide, by decide,
   calculate_momentum_bounds_and_seed.2.2 "AAA"
     [ApiMatch.mk "Aland" "Bland" "AAA" "BBB" 2 0 [] "2000" "Cup"]
     (ApiMatch.mk "Aland" "Bland" "AAA" "BBB" 2 0 [] "2000" "Cup")
     (by decide) (by decide)⟩

/-! ## C7: streak transition probabilities -/

theorem resultOf_cases (c : String) (m : ApiMatch) :
    resultOf c m = "W" ∨ resultOf c m = "D" ∨ resultOf c m = "L" := by
  unfold resultOf
  by_cases h1 : m.team_a_code == c <;> simp only [h1] <;> split_ifs <;> simp

/-- Row invariant: the three outcome counts sum to the total. -/
theorem bumpTrans_rowOK (tc : TransCounts) (prev nxt : String)
    (hn : nxt = "W" ∨ nxt = "D" ∨ nxt = "L")
    (h : tc.w.w + tc.w.d + tc.w.l = tc.w.total ∧
         tc.d.w + tc.d.d + tc.d.l = tc.d.total ∧
         tc.l.w + tc.l.d + tc.l.l = tc.l.total) :
    (bumpTrans tc prev nxt).w.w + (bumpTrans tc prev nxt).w.d + (bumpTrans tc prev nxt).w.l
      = (bumpTrans tc prev nxt).w.total ∧
    (bumpTrans tc prev nxt).d.w + (bumpTrans tc prev nxt).d.d + (bumpTrans tc prev nxt).d.l
      = (bumpTrans tc prev nxt).d.total ∧
    (bumpTrans tc prev nxt).l.w + (bumpTrans tc prev nxt).l.d + (bumpTrans tc prev nxt).l.l
      = (bumpTrans tc prev nxt).l.total := by
  unfold bumpTrans
  rcases hn with h1 | h1 | h1 <;> subst h1 <;> split_ifs <;> simp_all <;> omega

theorem countTransitions_rowOK :
    ∀ (rs : List String) (tc : TransCounts),
    (∀ x ∈ rs, x = "W" ∨ x = "D" ∨ x = "L") →
    (tc.w.w + tc.w.d + tc.w.l = tc.w.total ∧
     tc.d.w + tc.d.d + tc.d.l = tc.d.total ∧
     tc.l.w + tc.l.d + tc.l.l = tc.l.total) →
    ((countTransitions tc rs).w.w + (countTransitions tc rs).w.d +
      (countTransitions tc rs).w.l = (countTransitions tc rs).w.total ∧
     (countTransitions tc rs).d.w + (countTransitions tc rs).d.d +
      (countTransitions tc rs).d.l = (countTransitions tc rs).d.total ∧
     (countTransitions tc rs).l.w + (countTransitions tc rs).l.d +
      (countTransitions tc rs).l.l = (countTransitions tc rs).l.total)
  | [], tc, _, h => h
  | [_], tc, _, h => h
  | p :: q :: rest, tc, hmem, h => by
    have hq : q = "W" ∨ q = "D" ∨ q = "L" :=
      hmem q (List.mem_cons_of_mem p (List.mem_cons_self q rest))
    have hb := bumpTrans_rowOK tc p q hq h
    exact countTransitions_rowOK (q :: rest) (bumpTrans tc p q)
      (fun x hx => hmem x (List.mem_cons_of_mem p hx)) hb

theorem probRow_ok (row : TransCount) (hok : row.w + row.d + row.l = row.total) :
    transRowOk (probRow row) := by
  unfold probRow transRowOk
  split_ifs with h
  · constructor
    · intro _
      have ht : (0 : ℚ) < (row.total : ℚ) := by exact_mod_cast h
      have hsum : (row.w : ℚ) / (row.total : ℚ) + (row.d : ℚ) / (row.total : ℚ) +
          (row.l : ℚ) / (row.total : ℚ) = 1 := by
        rw [div_add_div_same, div_add_div_same, div_eq_one_iff_eq (ne_of_gt ht)]
        exact_mod_cast hok
      have h1 := abs_roundTo_sub ((row.w : ℚ) / (row.total : ℚ)) 2
      have h2 := abs_roundTo_sub ((row.d : ℚ) / (row.total : ℚ)) 2
      have h3 := abs_roundTo_sub ((row.l : ℚ) / (row.total : ℚ)) 2
      have e : roundTo ((row.w : ℚ) / (row.total : ℚ)) 2 +
          roundTo ((row.d : ℚ) / (row.total : ℚ)) 2 +
          roundTo ((row.l : ℚ) / (row.total : ℚ)) 2 - 1 =
          (roundTo ((row.w : ℚ) / (row.total : ℚ)) 2 - (row.w : ℚ) / (row.total : ℚ)) +
          ((roundTo ((row.d : ℚ) / (row.total : ℚ)) 2 - (row.d : ℚ) / (row.total : ℚ)) +
           (roundTo ((row.l : ℚ) / (row.total : ℚ)) 2 - (row.l : ℚ) / (row.total : ℚ))) := by
        linarith [hsum]
      rw [e]
      have hA := abs_add
        (roundTo ((row.w : ℚ) / (row.total : ℚ)) 2 - (row.w : ℚ) / (row.total : ℚ))
        ((roundTo ((row.d : ℚ) / (row.total : ℚ)) 2 - (row.d : ℚ) / (row.total : ℚ)) +
         (roundTo ((row.l : ℚ) / (row.total : ℚ)) 2 - (row.l : ℚ) / (row.total : ℚ)))
      have hB := abs_add
        (roundTo ((row.d : ℚ) / (row.total : ℚ)) 2 - (row.d : ℚ) / (row.total : ℚ))
        (roundTo ((row.l : ℚ) / (row.total : ℚ)) 2 - (row.l : ℚ) / (row.total : ℚ))
      norm_num at h1 h2 h3
      linarith
    · intro h0
      exfalso
      have h0n : row.total = 0 := h0
      omega
  · exact ⟨fun h0 => absurd (show (0:ℕ) > 0 from h0) (by omega),
      fun _ => ⟨rfl, rfl, rfl⟩⟩

/-- C7: for every team code and match list, every row of the
transitions table of calculate_streak_stats has probabilities that sum
to 1 up to the per-entry rounding when its sample size is positive,
and all-zero probabilities when its sample size is 0. -/
theorem calculate_streak_stats_transition_rows (c : String) (ms : List ApiMatch) :
    transRowOk (calculate_streak_stats c ms).transitions.w ∧
    transRowOk (calculate_streak_stats c ms).transitions.d ∧
    transRowOk (calculate_streak_stats c ms).transitions.l := by
  have hmem : ∀ x ∈ (pySort yearAsc (teamFilter c ms)).map (resultOf c),
      x = "W" ∨ x = "D" ∨ x = "L" := by
    intro x hx
    rcases List.mem_map.mp hx with ⟨m, _, hm⟩
    exact hm ▸ resultOf_cases c m
  have hz := countTransitions_rowOK ((pySort yearAsc (teamFilter c ms)).map (resultOf c))
    { w := { w := 0, d := 0, l := 0, total := 0 }
      d := { w := 0, d := 0, l := 0, total := 0 }
      l := { w := 0, d := 0, l := 0, total := 0 } } hmem (by simp)
  exact ⟨probRow_ok _ hz.1, probRow_ok _ hz.2.1, probRow_ok _ hz.2.2⟩

/-- C7 witness: a team with two recorded wins has a W row with sample
size 1 whose probabilities sum to 1, and a D row with sample size 0
whose probabilities are all zero. -/
theorem calculate_streak_stats_transition_rows_witness :
    ((calculate_streak_stats "AAA" [
        { team_a := "Aland", team_b := "Bland", team_a_code := "AAA", team_b_code := "BBB"
          score_a := 1, score_b := 0, goals := [], year := "2000", competition := "Cup" },
        { team_a := "Aland", team_b := "Cland", team_a_code := "AAA", team_b_code := "CCC"
          score_a := 2, score_b := 0, goals := [], year := "2001", competition := "Cup" }]
      ).transitions.w.sample_size > 0 ∧
     |(calculate_streak_stats "AAA" [
        { team_a := "Aland", team_b := "Bland", team_a_code := "AAA", team_b_code := "BBB"
          score_a := 1, score_b := 0, goals := [], year := "2000", competition := "Cup" },
        { team_a := "Aland", team_b := "Cland", team_a_code := "AAA", team_b_code := "CCC"
          score_a := 2, score_b := 0, goals := [], year := "2001", competition := "Cup" }]
      ).transitions.w.w +
      (calculate_streak_stats "AAA" [
        { team_a := "Aland", team_b := "Bland", team_a_code := "AAA", team_b_code := "BBB"
          score_a := 1, score_b := 0, goals := [], year := "2000", competition := "Cup" },
        { team_a := "Aland", team_b := "Cland", team_a_code := "AAA", team_b_code := "CCC"
          score_a := 2, score_b := 0, goals := [], year := "2001", competition := "Cup" }]
      ).transitions.w.d +
      (calculate_streak_stats "AAA" [
        { team_a := "Aland", team_b := "Bland", team_a_code := "AAA", team_b_code := "BBB"
          score_a := 1, score_b := 0, goals := [], year := "2000", competition := "Cup" },
        { team_a := "Aland", team_b := "Cland", team_a_code := "AAA", team_b_code := "CCC"
          score_a := 2, score_b := 0, goals := [], year := "2001", competition := "Cup" }]
      ).transitions.w.l - 1| ≤ 3/200) ∧
    ((calculate_streak_stats "AAA" [
        { team_a := "Aland", team_b := "Bland", team_a_code := "AAA", team_b_code := "BBB"
          score_a := 1, score_b := 0, goals := [], year := "2000", competition := "Cup" },
        { team_a := "Aland", team_b := "Cland", team_a_code := "AAA", team_b_code := "CCC"
          score_a := 2, score_b := 0, goals := [], year := "2001", competition := "Cup" }]
      ).transitions.d.sample_size = 0 ∧
     (calculate_streak_stats "AAA" [
        { team_a := "Aland", team_b := "Bland", team_a_code := "AAA", team_b_code := "BBB"
          score_a := 1, score_b := 0, goals := [], year := "2000", competition := "Cup" },
        { team_a := "Aland", team_b := "Cland", team_a_code := "AAA", team_b_code := "CCC"
          score_a := 2, score_b := 0, goals := [], year := "2001", competition := "Cup" }]
      ).transitions.d.w = 0) := by
  refine ⟨⟨?_, ?_⟩, ?_, ?_⟩
  · with_unfolding_all decide
  · exact (calculate_streak_stats_transition_rows "AAA" _).1.1 (by with_unfolding_all decide)
  · with_unfolding_all decide
  · exact ((calculate_streak_stats_transition_rows "AAA" _).2.1.2
      (by with_unfolding_all decide)).1

/-! ## C9: zero-match teams get zero or default shapes -/

theorem teamFilter_eq_nil (c : String) (ms : List ApiMatch)
    (hc : ∀ m ∈ ms, m.team_a_code ≠ c ∧ m.team_b_code ≠ c) :
    teamFilter c ms = [] := by
  induction ms with
  | nil => rfl
  | cons m t ih =>
    have h1 : (m.team_a_code == c) = false :=
      beq_eq_false_iff_ne.mpr (hc m (List.mem_cons_self m t)).1
    have h2 : (m.team_b_code == c) = false :=
      beq_eq_false_iff_ne.mpr (hc m (List.mem_cons_self m t)).2
    have ht := ih (fun x hx => hc x (List.mem_cons_of_mem m hx))
    unfold teamFilter at ht ⊢
    rw [List.filter_cons]
    simp only [h1, h2, Bool.or_self, Bool.false_or]
    exact ht

theorem h2hBetween_false_left (c d : String) (m : ApiMatch)
    (h1 : m.team_a_code ≠ c) (h2 : m.team_b_code ≠ c) :
    h2hBetween c d m = false := by
  unfold h2hBetween
  simp [beq_eq_false_iff_ne.mpr h1, beq_eq_false_iff_ne.mpr h2]

theorem h2hBetween_false_right (c d : String) (m : ApiMatch)
    (h1 : m.team_a_code ≠ c) (h2 : m.team_b_code ≠ c) :
    h2hBetween d c m = false := by
  unfold h2hBetween
  simp [beq_eq_false_iff_ne.mpr h1, beq_eq_false_iff_ne.mpr h2]

theorem h2hFilter_eq_nil_left (c d : String) (ms : List ApiMatch)
    (hc : ∀ m ∈ ms, m.team_a_code ≠ c ∧ m.team_b_code ≠ c) :
    ms.filter (h2hBetween c d) = [] := by
  induction ms with
  | nil => rfl
  | cons m t ih =>
    rw [List.filter_cons]
    have h := hc m (List.mem_cons_self m t)
    simp only [h2hBetween_false_left c d m h.1 h.2]
    exact ih (fun x hx => hc x (List.mem_cons_of_mem m hx))

theorem h2hFilter_eq_nil_right (c d : String) (ms : List ApiMatch)
    (hc : ∀ m ∈ ms, m.team_a_code ≠ c ∧ m.team_b_code ≠ c) :
    ms.filter (h2hBetween d c) = [] := by
  induction ms with
  | nil => rfl
  | cons m t ih =>
    rw [List.filter_cons]
    have h := hc m (List.mem_cons_self m t)
    simp only [h2hBetween_false_right c d m h.1 h.2]
    exact ih (fun x hx => hc x (List.mem_cons_of_mem m hx))

theorem foldl_of_skip {β : Type} (f : β → ApiMatch → β) (c : String)
    (hf : ∀ st m, m.team_a_code ≠ c → m.team_b_code ≠ c → f st m = st) :
    ∀ (ms : List ApiMatch), (∀ m ∈ ms, m.team_a_code ≠ c ∧ m.team_b_code ≠ c) →
    ∀ st, ms.foldl f st = st
  | [], _, st => rfl
  | m :: t, hc, st => by
    rw [List.foldl_cons,
      hf st m (hc m (List.mem_cons_self m t)).1 (hc m (List.mem_cons_self m t)).2]
    exact foldl_of_skip f c hf t (fun x hx => hc x (List.mem_cons_of_mem m hx)) st

theorem assocGet_assocSet_ne {α : Type} (l : List (String × α)) (k k2 : String) (v : α)
    (h : k2 ≠ k) : assocGet (assocSet l k2 v) k = assocGet l k := by
  induction l with
  | nil => simp [assocSet, assocGet, beq_eq_false_iff_ne.mpr h]
  | cons p rest ih =>
    unfold assocSet
    by_cases hp : p.1 == k2
    · have : p.1 ≠ k := by
        intro hk
        exact h ((eq_of_beq hp).symm.trans hk)
      simp only [hp]
      unfold assocGet
      simp [beq_eq_false_iff_ne.mpr this]
    · simp only [hp]
      unfold assocGet
      by_cases hk : p.1 == k
      · simp [hk]
      · simp only [hk, Bool.false_eq_true, if_false]
        exact ih

theorem assocGet_append_one {α : Type} (l : List (String × α)) (k w : String) (v : α)
    (hw : w ≠ k) (h0 : assocGet l k = none) : assocGet (l ++ [(w, v)]) k = none := by
  induction l with
  | nil => simp [assocGet, beq_eq_false_iff_ne.mpr hw]
  | cons p rest ih =>
    obtain ⟨k2, v2⟩ := p
    rw [List.cons_append]
    unfold assocGet at h0 ⊢
    by_cases hp : k2 == k
    · simp [hp] at h0
    · simp only [hp, Bool.false_eq_true, if_false] at h0 ⊢
      exact ih h0

theorem assocGet_addWin_ne (g : List (String × List String)) (w lo c : String)
    (hw : w ≠ c) (h0 : assocGet g c = none) : assocGet (addWin g w lo) c = none := by
  unfold addWin
  cases hgw : assocGet g w with
  | none => exact assocGet_append_one g c w [lo] hw h0
  | some ls => rw [assocGet_assocSet_ne g c w (ls ++ [lo]) hw]; exact h0

theorem graphStep_no_wins (st : List (String × List String) × List (String × String))
    (m : ApiMatch) (c : String) (h1 : m.team_a_code ≠ c) (h2 : m.team_b_code ≠ c)
    (h0 : assocGet st.1 c = none) : assocGet (graphStep st m).1 c = none := by
  unfold graphStep
  split_ifs with hs1 hs2
  · exact assocGet_addWin_ne st.1 m.team_a_code m.team_b_code c h1 h0
  · exact assocGet_addWin_ne st.1 m.team_b_code m.team_a_code c h2 h0
  · exact h0

theorem buildWinsGraph_no_wins :
    ∀ (ms : List ApiMatch) (c : String)
      (st : List (String × List String) × List (String × String)),
      (∀ m ∈ ms, m.team_a_code ≠ c ∧ m.team_b_code ≠ c) →
      assocGet st.1 c = none →
      assocGet (ms.foldl graphStep st).1 c = none
  | [], c, st, _, h0 => h0
  | m :: t, c, st, hc, h0 => by
    rw [List.foldl_cons]
    have hm := hc m (List.mem_cons_self m t)
    exact buildWinsGraph_no_wins t c (graphStep st m)
      (fun x hx => hc x (List.mem_cons_of_mem m hx))
      (graphStep_no_wins st m c hm.1 hm.2 h0)

/-- C9: for a team code that appears in no match, every statistics
function returns its zero or default shape: zero goal stats with an
empty per-competition table, zero home and away splits with all
division-derived fields 0, empty streaks with zero transitions, zero
momentum with empty history, zero head-to-head in both argument
orders, an empty dominance graph and a zero goals-per-match record. -/
theorem stats_zero_shapes_for_absent_team (c : String) (ms : List ApiMatch)
    (hc : ∀ m ∈ ms, m.team_a_code ≠ c ∧ m.team_b_code ≠ c) :
    calculate_goal_stats c ms =
      { global := { goals_for := 0, goals_against := 0, matches_played := 0
                    avg_goals_for := 0, avg_goals_against := 0, goal_difference := 0 }
        by_competition := [] } ∧
    calculate_home_away_stats c ms = { home := zeroSide, away := zeroSide } ∧
    calculate_streak_stats c ms =
      { current_streak := { type := none, count := 0 }
        longest_streaks := { w := 0, d := 0, l := 0, unbeaten := 0 }
        transitions :=
          { w := { w := 0, d := 0, l := 0, sample_size := 0 }
            d := { w := 0, d := 0, l := 0, sample_size := 0 }
            l := { w := 0, d := 0, l := 0, sample_size := 0 } }
        total_matches := 0 } ∧
    calculate_momentum c ms = { current_momentum := 0, history := [] } ∧
    (∀ d, calculate_head_to_head c d ms =
      { total_matches := 0, wins_a := 0, wins_b := 0, draws := 0
        goals_a := 0, goals_b := 0, recent_matches := [] }) ∧
    (∀ d, calculate_head_to_head d c ms =
      { total_matches := 0, wins_a := 0, wins_b := 0, draws := 0
        goals_a := 0, goals_b := 0, recent_matches := [] }) ∧
    calculate_graph_stats c ms = { indirect_wins := [], total_indirect_wins := 0 } ∧
    calculate_goal_percentage_stats c ms =
      { available := true, goals_per_match := 0, total_goals := 0, matches_played := 0
        message := "Datos calculados en base a historial disponible." } := by
  have hfil := teamFilter_eq_nil c ms hc
  refine ⟨?_, ?_, ?_, ?_, ?_, ?_, ?_, ?_⟩
  · unfold calculate_goal_stats
    rw [foldl_of_skip _ c ?_ ms hc]
    · rfl
    · intro st m h1 h2
      simp [beq_eq_false_iff_ne.mpr h1, beq_eq_false_iff_ne.mpr h2]
  · unfold calculate_home_away_stats
    rw [foldl_of_skip _ c ?_ ms hc]
    · rfl
    · intro st m h1 h2
      simp [beq_eq_false_iff_ne.mpr h1, beq_eq_false_iff_ne.mpr h2]
  · unfold calculate_streak_stats
    rw [hfil]
    rfl
  · unfold calculate_momentum
    rw [hfil]
    rfl
  · intro d
    unfold calculate_head_to_head
    rw [h2hFilter_eq_nil_left c d ms hc]
    rfl
  · intro d
    unfold calculate_head_to_head
    rw [h2hFilter_eq_nil_right c d ms hc]
    rfl
  · have h0 := buildWinsGraph_no_wins ms c ([], []) hc rfl
    unfold calculate_graph_stats buildWinsGraph
    simp only [h0, Option.getD_none, List.foldl_nil]
    rfl
  · unfold calculate_goal_percentage_stats
    rw [foldl_of_skip _ c ?_ ms hc]
    · rfl
    · intro st m h1 h2
      simp [beq_eq_false_iff_ne.mpr h1, beq_eq_false_iff_ne.mpr h2]

/-- C9 witness: the code ZZZ appears in no match of a concrete
one-match list, and its momentum comes back zero. -/
theorem stats_zero_shapes_for_absent_team_witness :
    (∀ m ∈ [ApiMatch.mk "Brazil" "Argentina" "BRA" "ARG" 3 1 [] "1994" "World Cup"],
      m.team_a_code ≠ "ZZZ" ∧ m.team_b_code ≠ "ZZZ") ∧
    calculate_momentum "ZZZ"
      [ApiMatch.mk "Brazil" "Argentina" "BRA" "ARG" 3 1 [] "1994" "World Cup"] =
      { current_momentum := 0, history := [] } :=
  ⟨by decide, (stats_zero_shapes_for_absent_team "ZZZ" _ (by decide)).2.2.2.1⟩

/-! ## C10: symmetry of predict_match under swapping the two teams -/

theorem h2hBetween_comm (a b : String) (m : ApiMatch) :
    h2hBetween a b m = h2hBetween b a m := by
  unfold h2hBetween
  exact Bool.or_comm _ _

theorem h2hStep_swap (a b : String) (hab : a ≠ b) (m : ApiMatch)
    (hm : h2hBetween a b m = true) (st : H2HStats) :
    h2hStep b (swapStats st) m = swapStats (h2hStep a st m) := by
  unfold h2hBetween at hm
  simp only [Bool.or_eq_true, Bool.and_eq_true, beq_iff_eq] at hm
  unfold h2hStep
  rcases hm with ⟨hA, hB⟩ | ⟨hA, hB⟩
  · have hA1 : (m.team_a_code == a) = true := by simp [hA]
    have hA2 : (m.team_a_code == b) = false := by
      rw [hA]; exact beq_eq_false_iff_ne.mpr hab
    simp only [hA1, hA2, Bool.false_eq_true, if_true, if_false]
    split_ifs <;> first | (exfalso; omega) | (simp [swapStats])
  · have hA1 : (m.team_a_code == b) = true := by simp [hA]
    have hA2 : (m.team_a_code == a) = false := by
      rw [hA]; exact beq_eq_false_iff_ne.mpr (Ne.symm hab)
    simp only [hA1, hA2, Bool.false_eq_true, if_true, if_false]
    split_ifs <;> first | (exfalso; omega) | (simp [swapStats])

theorem h2hFold_swap (a b : String) (hab : a ≠ b) :
    ∀ (l : List ApiMatch), (∀ m ∈ l, h2hBetween a b m = true) →
    ∀ (st : H2HStats),
      l.foldl (h2hStep b) (swapStats st) = swapStats (l.foldl (h2hStep a) st)
  | [], _, st => rfl
  | m :: t, hl, st => by
    rw [List.foldl_cons, List.foldl_cons,
      h2hStep_swap a b hab m (hl m (List.mem_cons_self m t)) st]
    exact h2hFold_swap a b hab t (fun x hx => hl x (List.mem_cons_of_mem m hx)) _

theorem calculate_head_to_head_swap (a b : String) (hab : a ≠ b) (ms : List ApiMatch) :
    calculate_head_to_head b a ms = swapStats (calculate_head_to_head a b ms) := by
  unfold calculate_head_to_head
  dsimp only
  have hfil : ms.filter (h2hBetween b a) = ms.filter (h2hBetween a b) := by
    apply List.filter_congr
    intro m _
    exact (h2hBetween_comm a b m).symm
  rw [hfil]
  have hfold := h2hFold_swap a b hab (ms.filter (h2hBetween a b))
    (fun m hm => (List.mem_filter.mp hm).2)
    { total_matches := 0, wins_a := 0, wins_b := 0, draws := 0, goals_a := 0, goals_b := 0, recent_matches := [] }
  rw [show (swapStats { total_matches := 0, wins_a := 0, wins_b := 0, draws := 0, goals_a := 0, goals_b := 0, recent_matches := [] } : H2HStats) = { total_matches := 0, wins_a := 0, wins_b := 0, draws := 0, goals_a := 0, goals_b := 0, recent_matches := [] } from rfl] at hfold
  rw [hfold]
  rfl

theorem h2hScores_swap (a b : String) (hab : a ≠ b) (ms : List ApiMatch) :
    h2hScores b a ms = ((h2hScores a b ms).2, (h2hScores a b ms).1) := by
  unfold h2hScores
  rw [calculate_head_to_head_swap a b hab ms]
  dsimp only [swapStats]
  split_ifs <;> rfl

theorem goalScores_swap (a b : String) (ms : List ApiMatch) :
    goalScores b a ms = ((goalScores a b ms).2, (goalScores a b ms).1) := by
  unfold goalScores
  dsimp only
  rw [add_comm (goalPower b a ms) (goalPower a b ms)]
  split_ifs <;> rfl

theorem finalScore_swap (a b : String) (hab : a ≠ b) (ms : List ApiMatch) :
    finalScoreA b a ms = finalScoreB a b ms ∧ finalScoreB b a ms = finalScoreA a b ms := by
  unfold finalScoreA finalScoreB
  rw [h2hScores_swap a b hab ms, goalScores_swap a b ms]
  exact ⟨rfl, rfl⟩

theorem probabilityPair_swap (x y : ℚ) :
    (probabilityPair x y).1 = (probabilityPair y x).2 ∧
    (probabilityPair x y).2 = (probabilityPair y x).1 := by
  unfold probabilityPair
  rw [add_comm y x]
  split_ifs <;> exact ⟨rfl, rfl⟩

/-- C10 counterexample: with the two team arguments equal and a
degenerate match that lists the same code on both sides, predict_match
applied to the swapped pair (the same call) does not return swapped
probabilities, so the claim fails for a pair of equal team codes. -/
theorem predict_match_swap_counterexample :
    (predict_match "AAA" "AAA"
      [ApiMatch.mk "Selfland" "Selfland" "AAA" "AAA" 1 0 [] "2000" "Cup"]).probability_a ≠
    (predict_match "AAA" "AAA"
      [ApiMatch.mk "Selfland" "Selfland" "AAA" "AAA" 1 0 [] "2000" "Cup"]).probability_b := by
  with_unfolding_all decide

/-- C10 (amended): for two distinct team codes a and b and every match
list, predict_match is symmetric under swapping its team arguments:
probability_a of predict_match a b equals probability_b of
predict_match b a, and conversely. -/
theorem predict_match_swap_symmetric (a b : String) (ms : List ApiMatch) (hab : a ≠ b) :
    (predict_match a b ms).probability_a = (predict_match b a ms).probability_b ∧
    (predict_match a b ms).probability_b = (predict_match b a ms).probability_a := by
  have hf := finalScore_swap a b hab ms
  have hswap := probabilityPair_swap (finalScoreA a b ms) (finalScoreB a b ms)
  constructor
  · show (probabilityPair (finalScoreA a b ms) (finalScoreB a b ms)).1 =
      (probabilityPair (finalScoreA b a ms) (finalScoreB b a ms)).2
    rw [hf.1, hf.2]
    exact hswap.1
  · show (probabilityPair (finalScoreA a b ms) (finalScoreB a b ms)).2 =
      (probabilityPair (finalScoreA b a ms) (finalScoreB b a ms)).1
    rw [hf.1, hf.2]
    exact hswap.2

/-- C10 witness: the amended symmetry at the concrete distinct codes
AAA and BBB over the empty match list. -/
theorem predict_match_swap_symmetric_witness :
    "AAA" ≠ "BBB" ∧
    (predict_match "AAA" "BBB" []).probability_a =
      (predict_match "BBB" "AAA" []).probability_b :=
  ⟨by decide, (predict_match_swap_symmetric "AAA" "BBB" [] (by decide)).1⟩

/-! ## C3: team identity resolver on historical names -/

/-- C3: the resolver maps Zaire and DR Congo to the same code COD,
West Germany and Germany to the same code GER, East Germany to the
distinct code GDR, and Yugoslavia and Serbia to two different codes. -/
theorem get_team_info_succession_codes :
    (get_team_info "Zaire").map TeamInfo.code = some "COD" ∧
    (get_team_info "DR Congo").map TeamInfo.code = some "COD" ∧
    (get_team_info "West Germany").map TeamInfo.code = some "GER" ∧
    (get_team_info "Germany").map TeamInfo.code = some "GER" ∧
    (get_team_info "East Germany").map TeamInfo.code = some "GDR" ∧
    (get_team_info "Yugoslavia").map TeamInfo.code = some "YUG" ∧
    (get_team_info "Serbia").map TeamInfo.code = some "SRB" ∧
    ("GDR" : String) ≠ "GER" ∧ ("YUG" : String) ≠ "SRB" := by
  decide

/-! ## C8: fallback code generator for unknown teams -/

/-- A valid code point round-trips through Char.ofNat. -/
theorem char_toNat_ofNat (n : ℕ) (h : n < 55296) : (Char.ofNat n).toNat = n := by
  have hvalid : n.isValidChar := Or.inl h
  simp only [Char.ofNat, hvalid, dif_pos, Char.ofNatAux, Char.toNat, UInt32.toNat,
    BitVec.toNat_ofNatLt]

/-- Code points 65-90 are uppercase characters. -/
theorem ofNat_isUpper (m : ℕ) (h1 : 65 ≤ m) (h2 : m ≤ 90) :
    (Char.ofNat m).isUpper = true := by
  have hvalid : m.isValidChar := Or.inl (by omega)
  have e1 : ((65 : UInt32).toBitVec).toNat = 65 := rfl
  have e2 : ((90 : UInt32).toBitVec).toNat = 90 := rfl
  simp only [Char.isUpper, Char.ofNat, hvalid, dif_pos, Char.ofNatAux,
    Bool.and_eq_true, decide_eq_true_eq, GE.ge, UInt32.le_def, BitVec.le_def,
    BitVec.toNat_ofNatLt, e1, e2]
  constructor <;> omega

/-- The remainder returned by the pattern matcher is a suffix of its
input. -/
theorem matchItems_suffix (p : List (Char × Bool)) :
    ∀ (input : List Char) (lc : Char) (rem : List Char),
      matchItems p input = some (lc, rem) → rem.IsSuffix input := by
  induction p with
  | nil => intro input lc rem h; simp [matchItems] at h
  | cons hd tl ih =>
    obtain ⟨c, dot⟩ := hd
    intro input lc rem h
    cases tl with
    | nil =>
      cases input with
      | nil => simp [matchItems] at h
      | cons x rest =>
        simp only [matchItems] at h
        split at h
        · split at h
          · split at h
            · split at h
              · simp only [Option.some.injEq, Prod.mk.injEq] at h
                obtain ⟨-, rfl⟩ := h
                exact (List.suffix_cons _ _).trans (List.suffix_cons _ _)
              · simp only [Option.some.injEq, Prod.mk.injEq] at h
                obtain ⟨-, rfl⟩ := h
                exact List.suffix_cons _ _
            · split at h
              · simp only [Option.some.injEq, Prod.mk.injEq] at h
                obtain ⟨-, rfl⟩ := h
                exact List.suffix_cons _ _
              · simp at h
          · split at h
            · simp only [Option.some.injEq, Prod.mk.injEq] at h
              obtain ⟨-, rfl⟩ := h
              exact List.suffix_cons _ _
            · simp at h
        · simp at h
    | cons hd2 tl2 =>
      cases input with
      | nil => simp [matchItems] at h
      | cons x rest =>
        simp only [matchItems] at h
        split at h
        · split at h
          · split at h
            · exact (ih _ _ _ h).trans ((List.suffix_cons _ _).trans (List.suffix_cons _ _))
            · exact (ih _ _ _ h).trans (List.suffix_cons _ _)
          · exact (ih _ _ _ h).trans (List.suffix_cons _ _)
        · simp at h

/-- The remainder returned by the alternation matcher is a suffix of
its input. -/
theorem tryPats_suffix (pats : List (List (Char × Bool))) :
    ∀ (input : List Char) (lc : Char) (rem : List Char),
      tryPats pats input = some (lc, rem) → rem.IsSuffix input := by
  induction pats with
  | nil => intro input lc rem h; simp [tryPats] at h
  | cons p ps ih =>
    intro input lc rem h
    simp only [tryPats] at h
    split at h
    · rename_i r hr
      obtain ⟨lc2, rem2⟩ := r
      cases h
      exact matchItems_suffix p input _ _ hr
    · exact ih input lc rem h

/-- With an empty replacement, every character of the substitution
output is a character of the input. -/
theorem subScanF_nil_mem (pats : List (List (Char × Bool))) :
    ∀ (fuel : ℕ) (prev : Option Char) (input : List Char) (c : Char),
      c ∈ subScanF pats [] fuel prev input → c ∈ input := by
  intro fuel
  induction fuel with
  | zero => intro prev input c h; simpa [subScanF] using h
  | succ n ih =>
    intro prev input c h
    cases input with
    | nil => simp [subScanF] at h
    | cons x rest =>
      simp only [subScanF] at h
      split at h
      · split at h
        · rename_i lastc rem hpr
          simp only [List.nil_append] at h
          have hrem : c ∈ rem := ih _ rem c h
          exact (tryPats_suffix pats _ _ _ hpr).subset hrem
        · rcases List.mem_cons.mp h with hx | hrest
          · exact hx ▸ List.mem_cons_self x rest
          · exact List.mem_cons_of_mem x (ih _ rest c hrest)
      · rcases List.mem_cons.mp h with hx | hrest
        · exact hx ▸ List.mem_cons_self x rest
        · exact List.mem_cons_of_mem x (ih _ rest c hrest)

/-- Lowercasing an ASCII character yields an ASCII character that is
not an uppercase letter. -/
theorem pyLower_ascii (c : Char) (h : c.toNat ≤ 127) :
    (pyLower c).toNat ≤ 127 ∧ ¬(65 ≤ (pyLower c).toNat ∧ (pyLower c).toNat ≤ 90) := by
  unfold pyLower
  split_ifs with hc
  · rw [char_toNat_ofNat (c.toNat + 32) (by omega)]
    omega
  · exact ⟨h, by omega⟩

/-- An ASCII alphabetic character that is not an uppercase letter is a
lowercase letter. -/
theorem pyIsAlpha_ascii_lower (c : Char) (h127 : c.toNat ≤ 127)
    (hnu : ¬(65 ≤ c.toNat ∧ c.toNat ≤ 90)) (ha : pyIsAlpha c = true) :
    97 ≤ c.toNat ∧ c.toNat ≤ 122 := by
  unfold pyIsAlpha at ha
  simp only [Bool.or_eq_true, Bool.and_eq_true, decide_eq_true_eq, beq_iff_eq,
    bne_iff_ne] at ha
  omega

/-- Python upper maps a lowercase ASCII letter to a single uppercase
character. -/
theorem pyUpperC_lower (c : Char) (h1 : 97 ≤ c.toNat) (h2 : c.toNat ≤ 122) :
    ∃ d, pyUpperC c = [d] ∧ d.isUpper = true := by
  refine ⟨Char.ofNat (c.toNat - 32), ?_, ofNat_isUpper _ (by omega) (by omega)⟩
  unfold pyUpperC
  rw [if_pos ⟨h1, h2⟩]

/-- Flattening per-character uppercasings that are all singletons
preserves the length and yields only uppercase characters. -/
theorem flatten_singles (f : Char → List Char) :
    ∀ (l : List Char), (∀ c ∈ l, ∃ d, f c = [d] ∧ d.isUpper = true) →
      ((l.map f).flatten).length = l.length ∧
      ∀ d ∈ (l.map f).flatten, d.isUpper = true := by
  intro l
  induction l with
  | nil => intro _; simp
  | cons x xs ih =>
    intro h
    obtain ⟨d, hfd, hdu⟩ := h x (List.mem_cons_self x xs)
    have hxs := ih (fun c hc => h c (List.mem_cons_of_mem x hc))
    simp only [List.map_cons, List.flatten_cons, hfd]
    constructor
    · simp [hxs.1]
    · intro e he
      rcases List.mem_append.mp he with h1 | h2
      · have he2 : e = d := by simpa using h1
        exact he2 ▸ hdu
      · exact hxs.2 e h2

/-- C8 counterexamples: on the input consisting of only the stop word
thE cleaner strips everything and generate_team_code returns the
2-character string XX, not a 3-letter code; and on the Latin-1 input
consisting of the single sharp s (code point 223, kept by isalpha),
Python upper expands it to SS and the result SSXX has 4 characters,
while an input with a non-ASCII Latin-1 letter keeps that letter:
C, o-circumflex, t, e yields the code C, O-circumflex, T. -/
theorem generate_team_code_counterexample :
    generate_team_code "the" = "XX" ∧ (generate_team_code "the").length ≠ 3 ∧
    generate_team_code "\xdf" = "SSXX" ∧ (generate_team_code "\xdf").length = 4 ∧
    generate_team_code "C\xf4te" = "C\xd4T" := by
  decide

/-- C8 (amended): for an ASCII input name, generate_team_code strips
stop words and non-letter characters, takes the first 3 remaining
letters uppercased and pads with X; the result is exactly 3 uppercase
characters whenever at least one letter remains after cleaning, and is
the 2-character string XX when no letter remains.  The ASCII
restriction is forced: Python upper can expand a non-ASCII letter
(sharp s gives SSXX, 4 characters). -/
theorem generate_team_code_shape (name : String)
    (hascii : ∀ c ∈ name.data, c.toNat ≤ 127) :
    (cleanedLetters name ≠ [] →
      (generate_team_code name).length = 3 ∧
      ∀ ch ∈ (generate_team_code name).data, ch.isUpper = true) ∧
    (cleanedLetters name = [] → generate_team_code name = "XX") := by
  have hclean : ∀ c ∈ cleanedLetters name, 97 ≤ c.toNat ∧ c.toNat ≤ 122 := by
    intro c hc
    unfold cleanedLetters at hc
    dsimp only at hc
    have halpha : pyIsAlpha c = true := List.of_mem_filter hc
    have hsub := List.mem_of_mem_filter hc
    have hlow : c ∈ name.data.map pyLower := by
      unfold pySub at hsub
      exact subScanF_nil_mem _ _ _ _ _ hsub
    rcases List.mem_map.mp hlow with ⟨c0, hc0, hceq⟩
    have hl := pyLower_ascii c0 (hascii c0 hc0)
    rw [hceq] at hl
    exact pyIsAlpha_ascii_lower c hl.1 hl.2 halpha
  constructor
  · intro hne
    have hpos : 0 < (cleanedLetters name).length := List.length_pos.mpr hne
    unfold generate_team_code
    dsimp only
    split_ifs with hlen
    · have hsingles : ∀ c ∈ (cleanedLetters name).take 3,
          ∃ d, pyUpperC c = [d] ∧ d.isUpper = true := by
        intro c hc
        have hcc := hclean c (List.mem_of_mem_take hc)
        exact pyUpperC_lower c hcc.1 hcc.2
      have hf := flatten_singles pyUpperC _ hsingles
      refine ⟨?_, ?_⟩
      · show ((((cleanedLetters name).take 3).map pyUpperC).flatten).length = 3
        rw [hf.1, List.length_take]
        omega
      · intro ch hch
        exact hf.2 ch hch
    · have hsingles : ∀ c ∈ (cleanedLetters name ++ ['X', 'X']).take 3,
          ∃ d, pyUpperC c = [d] ∧ d.isUpper = true := by
        intro c hc
        rcases List.mem_append.mp (List.mem_of_mem_take hc) with hcl | hcx
        · have hcc := hclean c hcl
          exact pyUpperC_lower c hcc.1 hcc.2
        · have hcx2 : c = 'X' := by simpa using hcx
          exact hcx2 ▸ ⟨'X', by decide, by decide⟩
      have hf := flatten_singles pyUpperC _ hsingles
      refine ⟨?_, ?_⟩
      · show ((((cleanedLetters name ++ ['X', 'X']).take 3).map pyUpperC).flatten).length = 3
        rw [hf.1, List.length_take, List.length_append]
        simp only [List.length_cons, List.length_nil]
        omega
      · intro ch hch
        exact hf.2 ch hch
  · intro hnil
    unfold generate_team_code
    dsimp only
    rw [hnil]
    decide

/-- C8 witness: the amended shape at the concrete ASCII input ab,
which cleans to two letters and is padded to the 3-letter code ABX. -/
theorem generate_team_code_shape_witness :
    (∀ c ∈ "ab".data, c.toNat ≤ 127) ∧ cleanedLetters "ab" ≠ [] ∧
    (generate_team_code "ab").length = 3 :=
  ⟨by decide, by decide,
    ((generate_team_code_shape "ab" (by decide)).1 (by decide)).1⟩

/-! ## C2: score-detail parsing with a penalty head -/

/-- C2 counterexample: on the text 3-2 pen. with no following score
pair, the penalty score is recorded but the returned main score stays
0-0, so a penalty head alone does not make the main score the penalty
score. -/
theorem parse_score_details_pen_counterexample :
    (parse_score_details "3-2 pen.").score1_pen = some 3 ∧
    (parse_score_details "3-2 pen.").score1 ≠ 3 := by
  decide

/-- C2 (amended): the concrete text 3-2 pen. 0-0 a.e.t. (0-0) parses
to main score 3-2 (the penalty result), extra-time score 0-0, halftime
score 0-0 and is_aet true; and in general, whenever the penalty head
matches and at least one score pair follows it, the returned main
score is the penalty score and the first following pair is recorded as
the extra-time score. -/
theorem parse_score_details_pen_spec :
    parse_score_details "3-2 pen. 0-0 a.e.t. (0-0)" =
      { score1 := 3, score2 := 2, score1_ht := some 0, score2_ht := some 0
        score1_et := some 0, score2_et := some 0
        score1_pen := some 3, score2_pen := some 2, is_aet := true } ∧
    (∀ (s : String) (p1 p2 : ℕ) (rest : List Char) (s1 s2 : ℕ) (tl : List (ℕ × ℕ)),
      parsePen (pyStrip s.data) = some (p1, p2, rest) →
      findScores (pyStrip rest) = (s1, s2) :: tl →
      (parse_score_details s).score1 = p1 ∧ (parse_score_details s).score2 = p2 ∧
      (parse_score_details s).score1_et = some s1 ∧
      (parse_score_details s).score2_et = some s2 ∧
      (parse_score_details s).score1_pen = some p1 ∧
      (parse_score_details s).score2_pen = some p2) := by
  constructor
  · decide
  · intro s p1 p2 rest s1 s2 tl hpen hscores
    unfold parse_score_details
    dsimp only
    rw [hpen]
    dsimp only
    rw [hscores]
    exact ⟨rfl, rfl, rfl, rfl, rfl, rfl⟩

/-- C2 witness: the general penalty rule applied to the concrete text
3-2 pen. 0-0 a.e.t. (0-0). -/
theorem parse_score_details_pen_spec_witness :
    parsePen (pyStrip ("3-2 pen. 0-0 a.e.t. (0-0)").data) =
      some (3, 2, " 0-0 a.e.t. (0-0)".data) ∧
    (parse_score_details "3-2 pen. 0-0 a.e.t. (0-0)").score1 = 3 :=
  ⟨by decide,
   (parse_score_details_pen_spec.2 "3-2 pen. 0-0 a.e.t. (0-0)" 3 2
     " 0-0 a.e.t. (0-0)".data 0 0 [(0, 0)] (by decide) (by decide)).1⟩

/-! ## C5: the goals-consistency check of validate_match -/

/-- C5 counterexample: a match whose only listed goal is an own goal
in the first team's list with score 1-0.  The per-team counts with
own-goal redirection are (0, 1), which differ from the recorded 1-0,
yet validate_match emits no warning at all (and no error), because the
source only compares the total number of listed goals with the total
score. -/
theorem validate_match_owngoal_counterexample :
    redirectedCounts [GoalEntry.obj true] [] = (0, 1) ∧
    ((0 : ℕ), (1 : ℕ)) ≠ ((1 : ℕ), (0 : ℕ)) ∧
    (validate_match (MatchDoc.mk (some (TeamField.obj "Brazil" "BRA"))
      (some (TeamField.obj "Argentina" "ARG")) (some 1) (some 0)
      (some "1994-07-04") none none none [GoalEntry.obj true] [] false
      none none none none)).warnings = [] ∧
    (validate_match (MatchDoc.mk (some (TeamField.obj "Brazil" "BRA"))
      (some (TeamField.obj "Argentina" "ARG")) (some 1) (some 0)
      (some "1994-07-04") none none none [GoalEntry.obj true] [] false
      none none none none)).is_valid = true := by
  refine ⟨by decide, by decide, ?_, ?_⟩ <;> decide

theorem requiredPresent_no_missing (m : MatchDoc) (h : requiredPresent m = true) :
    missingFieldErrors m = [] := by
  unfold requiredPresent at h
  simp only [Bool.and_eq_true, Option.isSome_iff_exists] at h
  obtain ⟨⟨⟨⟨⟨t1, h1⟩, t2, h2⟩, s1, h3⟩, s2, h4⟩, d, h5⟩ := h
  unfold missingFieldErrors
  rw [h1, h2, h3, h4, h5]
  rfl

theorem validateGoalsConsistency_is_valid (m : MatchDoc) :
    (validateGoalsConsistency m).is_valid = true := by
  unfold validateGoalsConsistency
  dsimp only
  split_ifs <;> rfl

theorem merge_is_valid (r o : ValidationResult) :
    (r.merge o).is_valid = (r.is_valid && o.is_valid) := rfl

theorem merge_warnings (r o : ValidationResult) :
    (r.merge o).warnings = r.warnings ++ o.warnings := rfl

/-- C5 (amended): the goals check of validate_match compares only the
total number of listed goals with score1 + score2 (the per-team
own-goal-redirected counts are computed by the source but not used):
it yields the mismatch warning exactly when at least one goal is
listed and the total differs, it never yields an error and never
clears is_valid, the validity of validate_match does not depend on the
goal lists, and when the required fields are present the goals-check
warnings appear inside the warnings of validate_match. -/
theorem validate_match_goals_mismatch (m : MatchDoc) (ko : Bool) :
    validateGoalsConsistency m =
      { is_valid := true, errors := []
        warnings :=
          if m.goals1.length + m.goals2.length > 0 ∧
              ((m.goals1.length + m.goals2.length : ℤ)) ≠ m.score1.getD 0 + m.score2.getD 0
            then [goalsMismatchMsg m] else [] } ∧
    (validate_match m ko).is_valid =
      (validate_match { m with goals1 := [], goals2 := [] } ko).is_valid ∧
    (requiredPresent m = true → ∃ pre post,
      (validate_match m ko).warnings =
        pre ++ (validateGoalsConsistency m).warnings ++ post) := by
  refine ⟨?_, ?_, ?_⟩
  · unfold validateGoalsConsistency
    dsimp only
    split_ifs with h1 h2 h3 h4 h5
    · exfalso
      rw [h1.1, h1.2] at h2
      simp at h2
    · rfl
    · rfl
    · exfalso
      push_cast at h3 h4
      omega
    · exfalso
      push_cast at h3 h5
      omega
    · rfl
  · have hT : validateTeams { m with goals1 := [], goals2 := [] } = validateTeams m := rfl
    have hS : validateScores { m with goals1 := [], goals2 := [] } ko =
      validateScores m ko := rfl
    have hD : ({ m with goals1 := [], goals2 := [] } : MatchDoc).date = m.date := rfl
    have hTi : ({ m with goals1 := [], goals2 := [] } : MatchDoc).time = m.time := rfl
    have hK : validateKnockoutFields { m with goals1 := [], goals2 := [] } =
      validateKnockoutFields m := rfl
    have hKo : ({ m with goals1 := [], goals2 := [] } : MatchDoc).knockout = m.knockout := rfl
    have hReq : missingFieldErrors { m with goals1 := [], goals2 := [] } =
      missingFieldErrors m := rfl
    have hG1 := validateGoalsConsistency_is_valid m
    have hG2 := validateGoalsConsistency_is_valid { m with goals1 := [], goals2 := [] }
    unfold validate_match
    dsimp only
    rw [hT, hS, hD, hTi, hK, hKo, hReq]
    by_cases h : missingFieldErrors m ≠ []
    · simp only [if_pos h]
    · simp only [if_neg h]
      cases htime : m.time with
      | none =>
        dsimp only
        by_cases hko : (ko = true ∨ m.knockout = true)
        · simp only [if_pos hko, merge_is_valid, validateGoalsConsistency_is_valid]
        · simp only [if_neg hko, merge_is_valid, validateGoalsConsistency_is_valid]
      | some t =>
        dsimp only
        by_cases ht : t ≠ ""
        · by_cases hko : (ko = true ∨ m.knockout = true)
          · simp only [if_pos ht, if_pos hko, merge_is_valid, validateGoalsConsistency_is_valid]
          · simp only [if_pos ht, if_neg hko, merge_is_valid, validateGoalsConsistency_is_valid]
        · by_cases hko : (ko = true ∨ m.knockout = true)
          · simp only [if_neg ht, if_pos hko, merge_is_valid, validateGoalsConsistency_is_valid]
          · simp only [if_neg ht, if_neg hko, merge_is_valid, validateGoalsConsistency_is_valid]
  · intro hreq
    unfold validate_match
    dsimp only
    rw [requiredPresent_no_missing m hreq,
      if_neg (show ¬(([] : List String) ≠ []) from fun h => h rfl)]
    cases htime : m.time with
    | none =>
      by_cases hko : (ko = true ∨ m.knockout = true)
      · refine ⟨(validateTeams m).warnings ++ ((validateScores m ko).warnings ++
          (validateDate (m.date.getD "")).warnings),
          (validateKnockoutFields m).warnings, ?_⟩
        simp only [if_pos hko, merge_warnings, List.append_assoc, emptyVR,
          List.nil_append]
      · refine ⟨(validateTeams m).warnings ++ ((validateScores m ko).warnings ++
          (validateDate (m.date.getD "")).warnings), [], ?_⟩
        simp only [if_neg hko, merge_warnings, List.append_assoc, emptyVR,
          List.nil_append, List.append_nil]
    | some t =>
      by_cases ht : t ≠ ""
      · by_cases hko : (ko = true ∨ m.knockout = true)
        · refine ⟨(validateTeams m).warnings ++ ((validateScores m ko).warnings ++
            ((validateDate (m.date.getD "")).warnings ++ (validateTime t).warnings)),
            (validateKnockoutFields m).warnings, ?_⟩
          simp only [if_pos ht, if_pos hko, merge_warnings, List.append_assoc, emptyVR,
            List.nil_append]
        · refine ⟨(validateTeams m).warnings ++ ((validateScores m ko).warnings ++
            ((validateDate (m.date.getD "")).warnings ++ (validateTime t).warnings)),
            [], ?_⟩
          simp only [if_pos ht, if_neg hko, merge_warnings, List.append_assoc, emptyVR,
            List.nil_append, List.append_nil]
      · by_cases hko : (ko = true ∨ m.knockout = true)
        · refine ⟨(validateTeams m).warnings ++ ((validateScores m ko).warnings ++
            (validateDate (m.date.getD "")).warnings),
            (validateKnockoutFields m).warnings, ?_⟩
          simp only [if_neg ht, if_pos hko, merge_warnings, List.append_assoc, emptyVR,
            List.nil_append]
        · refine ⟨(validateTeams m).warnings ++ ((validateScores m ko).warnings ++
            (validateDate (m.date.getD "")).warnings), [], ?_⟩
          simp only [if_neg ht, if_neg hko, merge_warnings, List.append_assoc, emptyVR,
            List.nil_append, List.append_nil]

/-- C5 witness: a match listing two ordinary goals but recorded 1-0
has its mismatch warning, surfaced in validate_match. -/
theorem validate_match_goals_mismatch_witness :
    requiredPresent (MatchDoc.mk (some (TeamField.obj "Brazil" "BRA"))
      (some (TeamField.obj "Argentina" "ARG")) (some 1) (some 0)
      (some "1994-07-04") none none none [GoalEntry.obj false, GoalEntry.obj false] [] false
      none none none none) = true ∧
    (∃ pre post,
      (validate_match (MatchDoc.mk (some (TeamField.obj "Brazil" "BRA"))
        (some (TeamField.obj "Argentina" "ARG")) (some 1) (some 0)
        (some "1994-07-04") none none none
        [GoalEntry.obj false, GoalEntry.obj false] [] false
        none none none none)).warnings =
        pre ++ (validateGoalsConsistency (MatchDoc.mk (some (TeamField.obj "Brazil" "BRA"))
          (some (TeamField.obj "Argentina" "ARG")) (some 1) (some 0)
          (some "1994-07-04") none none none
          [GoalEntry.obj false, GoalEntry.obj false] [] false
          none none none none)).warnings ++ post) :=
  ⟨by decide,
   (validate_match_goals_mismatch (MatchDoc.mk (some (TeamField.obj "Brazil" "BRA"))
      (some (TeamField.obj "Argentina" "ARG")) (some 1) (some 0)
      (some "1994-07-04") none none none
      [GoalEntry.obj false, GoalEntry.obj false] [] false
      none none none none) false).2.2 (by decide)⟩

/-! ## C4: running-score stamping in the converter -/

theorem goalKeyLe_iff (x y : ParsedGoal × Bool) :
    goalKeyLe x y = true ↔
      (x.1.minute < y.1.minute ∨
       (x.1.minute = y.1.minute ∧ x.1.offset.getD 0 ≤ y.1.offset.getD 0)) := by
  unfold goalKeyLe
  simp [Bool.or_eq_true, Bool.and_eq_true, decide_eq_true_eq, beq_iff_eq]

theorem goalKeyLe_total (x y : ParsedGoal × Bool) :
    (goalKeyLe x y || goalKeyLe y x) = true := by
  rw [Bool.or_eq_true]
  by_cases h : goalKeyLe x y = true
  · exact Or.inl h
  · right
    rw [goalKeyLe_iff] at h ⊢
    omega

theorem goalKeyLe_trans (x y z : ParsedGoal × Bool)
    (h1 : goalKeyLe x y = true) (h2 : goalKeyLe y z = true) : goalKeyLe x z = true := by
  rw [goalKeyLe_iff] at h1 h2 ⊢
  omega

theorem convert_goal_stamp (g : ParsedGoal) (b : Bool) (s1 s2 : ℤ) :
    convert_goal_to_json g b s1 s2 = stampGoal (g, b) (applyGoal (s1, s2) (g, b)) := by
  unfold convert_goal_to_json stampGoal applyGoal
  cases hb : b <;> cases hog : g.is_own_goal <;> simp [hb, hog]

theorem goalLoop_eq_specStamped :
    ∀ (gs : List (ParsedGoal × Bool)) (s : ℤ × ℤ),
      (goalLoop gs s).1 = sideGoals true (specStamped s gs) ∧
      (goalLoop gs s).2 = sideGoals false (specStamped s gs)
  | [], s => ⟨rfl, rfl⟩
  | gb :: rest, s => by
    have ih := goalLoop_eq_specStamped rest (applyGoal s gb)
    obtain ⟨g, b⟩ := gb
    obtain ⟨s1, s2⟩ := s
    unfold goalLoop specStamped
    rw [convert_goal_stamp g b s1 s2]
    cases b <;> simp [sideGoals, List.filter_cons, ih.1, ih.2]

/-- C4: the converter stamps running scores by merging both teams goal
lists, sorting ascending by the pair (minute, stoppage offset or 0)
and replaying in order: the sorted merged list is ordered by that key,
and the emitted goals1 and goals2 of convert_match_to_json are exactly
the per-side projections of the spec-side stamped list, in which each
goal carries the score as it stands immediately after the goal is
applied, with an own goal credited to the opposing team. -/
theorem convert_match_to_json_goal_stamps (m : ParsedMatch) (num : ℤ) :
    List.Pairwise (fun x y => goalKeyLe x y = true)
      (pySort goalKeyLe (mergedGoals m)) ∧
    (convert_match_to_json m num).goals1 =
      sideGoals true (specStamped (0, 0) (pySort goalKeyLe (mergedGoals m))) ∧
    (convert_match_to_json m num).goals2 =
      sideGoals false (specStamped (0, 0) (pySort goalKeyLe (mergedGoals m))) := by
  refine ⟨?_, ?_, ?_⟩
  · exact pairwise_pySort goalKeyLe goalKeyLe_total goalKeyLe_trans _
  · exact (goalLoop_eq_specStamped (pySort goalKeyLe (mergedGoals m)) (0, 0)).1
  · exact (goalLoop_eq_specStamped (pySort goalKeyLe (mergedGoals m)) (0, 0)).2
